import Mathlib

/-!
# Raptor LT02 line node: polling monitors and their publications

A shallow embedding of `src/main.cpp`.  Every handler of the firmware becomes a
pure function from the global state and the values it samples from its
collaborators (`millis()`, `sonar.ping_cm()`, `dht.readTemperature()`,
`dht.readHumidity()`, `digitalRead`, `WiFi.status()`) to the new global state
and the list of `esp_mqtt_client_publish` calls it makes, in order.

Conventions of the embedding:

* `unsigned long` is 32 bits wide on the target, so timestamps are naturals
  reduced modulo `2^32` and their difference is taken modulo `2^32`;
* a `float` reading is either the not-a-number failure or a finite value, kept
  as a rational number; `(int)round(x)` is rounding half away from zero (the
  conversion is only defined by the language for values within `int` range);
* `Serial` output is console logging only and is left out;
* `LINE_CODE` comes from `secrets.h`, so topics are kept symbolic and the full
  topic string takes the line code as a parameter.
-/

namespace Raptor

/-! ## Data model -/

/-- Association states of the WiFi library (`wl_status_t`). -/
inductive WlStatus
  | WL_NO_SHIELD
  | WL_IDLE_STATUS
  | WL_NO_SSID_AVAIL
  | WL_SCAN_COMPLETED
  | WL_CONNECTED
  | WL_CONNECT_FAILED
  | WL_CONNECTION_LOST
  | WL_DISCONNECTED
  deriving DecidableEq, Repr

/-- The five topics the firmware publishes on. -/
inductive Topic
  | status
  | bucket
  | finding
  | temperature
  | humidity
  deriving DecidableEq, Repr

/-- Topic string: `"raptorfx02/" LINE_CODE "/bucket"` and its siblings. -/
def Topic.path (lineCode : String) : Topic → String
  | Topic.status => "raptorfx02/" ++ lineCode ++ "/status"
  | Topic.bucket => "raptorfx02/" ++ lineCode ++ "/bucket"
  | Topic.finding => "raptorfx02/" ++ lineCode ++ "/finding"
  | Topic.temperature => "raptorfx02/" ++ lineCode ++ "/temperature"
  | Topic.humidity => "raptorfx02/" ++ lineCode ++ "/humidity"

/-- One call `esp_mqtt_client_publish(mqtt, topic, payload, 0, qos, retain)`. -/
structure Pub where
  topic : Topic
  payload : String
  qos : Nat
  retain : Bool
  deriving DecidableEq, Repr

/-- The struct `lineData`. -/
structure lineData where
  status : Bool
  bucket : Bool
  emergency : Bool
  deriving DecidableEq, Repr

/-- All mutable state of the firmware: the globals, the function-local statics
(`lastSonarCheck`, `lastDHTCheck`, `loadButtonPressedAt`, `lastStatus`) and the
level driven on `PIN_LED`. -/
structure State where
  line : lineData
  isLoaded : Bool
  wifiStatus : WlStatus
  lastTemperature : Int
  lastHumidity : Int
  lastSonarCheck : Nat
  lastDHTCheck : Nat
  loadButtonPressedAt : Nat
  lastStatus : WlStatus
  led : Bool
  deriving DecidableEq, Repr

/-- The constant `INT_MIN` of a 32-bit `int`. -/
def INT_MIN : Int := -2147483648

/-- The constant `LOAD_PRESS_TIME`. -/
def LOAD_PRESS_TIME : Nat := 100

/-- State after static initialisation: `line = {false, false, false}`,
`isLoaded = false`, `wifiStatus` zero-initialised, both last readings `INT_MIN`,
all timestamps `0`, `lastStatus = WL_IDLE_STATUS`, LED low. -/
def init : State :=
  { line := { status := false, bucket := false, emergency := false }
    isLoaded := false
    wifiStatus := WlStatus.WL_IDLE_STATUS
    lastTemperature := INT_MIN
    lastHumidity := INT_MIN
    lastSonarCheck := 0
    lastDHTCheck := 0
    loadButtonPressedAt := 0
    lastStatus := WlStatus.WL_IDLE_STATUS
    led := false }

/-! ## Machine arithmetic and library calls -/

/-- Value of an `unsigned long`: reduction modulo `2^32`. -/
def u32 (a : Nat) : Nat := a % 4294967296

/-- Difference `a - b` of two `unsigned long` values, modulo `2^32`. -/
def usub32 (a b : Nat) : Nat := (a % 4294967296 + 4294967296 - b % 4294967296) % 4294967296

/-- The C operator `!` on an integer value: true exactly for zero. -/
def lnot (v : Nat) : Bool := v == 0

/-- Payload expression `b ? "1" : "0"`. -/
def boolStr (b : Bool) : String := if b then "1" else "0"

/-- A `float` returned by the DHT driver: the not-a-number failure, or a value. -/
inductive FloatReading
  | nan
  | val (q : ℚ)

/-- Conversion `(int)round(x)`: nearest integer, halves away from zero. -/
def roundToInt (q : ℚ) : Int := if 0 ≤ q then ⌊q + 1 / 2⌋ else ⌈q - 1 / 2⌉

/-- Result of `snprintf(buf, size, "%d", v)`: the decimal text of `v`, cut to the
`size - 1` characters that fit in front of the terminator. -/
def snprintf_d (size : Nat) (v : Int) : String := String.mk ((toString v).data.take (size - 1))

/-! ## Handlers -/

/-- The function `handle_sonar`; `millis1` and `millis2` are the results of its two
`millis()` calls and `distance` that of `sonar.ping_cm()`. -/
def handle_sonar (s : State) (millis1 millis2 distance : Nat) : State × List Pub :=
  if usub32 millis1 s.lastSonarCheck < 500 then (s, [])
  else
    let s1 : State := { s with lastSonarCheck := u32 millis2 }
    let bucketNow : Bool := lnot distance
    if bucketNow != s1.line.bucket then
      let s2 : State := { s1 with line := { s1.line with bucket := bucketNow }, isLoaded := false }
      if s2.wifiStatus = WlStatus.WL_CONNECTED then
        (s2, [{ topic := Topic.bucket, payload := boolStr s2.line.bucket, qos := 1, retain := true }])
      else (s2, [])
    else (s1, [])

/-- Temperature half of `handle_dht` (lines 106-121). -/
def dht_temperature (s : State) (temperature_f : FloatReading) : State × List Pub :=
  match temperature_f with
  | FloatReading.nan => (s, [])
  | FloatReading.val q =>
    let temperature : Int := roundToInt q
    if temperature ≠ s.lastTemperature then
      let s1 : State := { s with lastTemperature := temperature }
      if s1.wifiStatus = WlStatus.WL_CONNECTED then
        (s1, [{ topic := Topic.temperature, payload := snprintf_d 8 temperature, qos := 1, retain := true }])
      else (s1, [])
    else (s, [])

/-- Humidity half of `handle_dht` (lines 123-139). -/
def dht_humidity (s : State) (humidity_f : FloatReading) : State × List Pub :=
  match humidity_f with
  | FloatReading.nan => (s, [])
  | FloatReading.val q =>
    let humidity : Int := roundToInt q
    if humidity ≠ s.lastHumidity then
      let s1 : State := { s with lastHumidity := humidity }
      if s1.wifiStatus = WlStatus.WL_CONNECTED then
        (s1, [{ topic := Topic.humidity, payload := snprintf_d 8 humidity, qos := 1, retain := true }])
      else (s1, [])
    else (s, [])

/-- The function `handle_dht`; `millis1`, `millis2` are the results of its two
`millis()` calls, `temperature_f` and `humidity_f` those of the two driver reads. -/
def handle_dht (s : State) (millis1 millis2 : Nat) (temperature_f humidity_f : FloatReading) :
    State × List Pub :=
  if usub32 millis1 s.lastDHTCheck < 3000 then (s, [])
  else
    let s1 : State := { s with lastDHTCheck := u32 millis2 }
    let rt := dht_temperature s1 temperature_f
    let rh := dht_humidity rt.1 humidity_f
    (rh.1, rt.2 ++ rh.2)

/-- The function `handle_find_btn`; `pin` is `digitalRead(PIN_EMERGENCY_BUTTON)`. -/
def handle_find_btn (s : State) (pin : Nat) : State × List Pub :=
  let emergencyState : Bool := lnot pin
  if emergencyState != s.line.emergency then
    let s1 : State := { s with line := { s.line with emergency := emergencyState } }
    let s2 : State := { s1 with led := s1.line.emergency }
    if s2.wifiStatus = WlStatus.WL_CONNECTED then
      (s2, [{ topic := Topic.finding, payload := boolStr s2.line.emergency, qos := 1, retain := true }])
    else (s2, [])
  else (s, [])

/-- The function `handle_load_btn`; `pin` is `digitalRead(PIN_LOAD_BUTTON)` and
`millis` the result of the one `millis()` call a path makes. -/
def handle_load_btn (s : State) (pin millis : Nat) : State × List Pub :=
  if s.line.bucket || s.isLoaded then (s, [])
  else
    let loadState : Bool := lnot pin
    if loadState then
      if lnot s.loadButtonPressedAt then
        ({ s with loadButtonPressedAt := u32 millis }, [])
      else if usub32 millis s.loadButtonPressedAt > LOAD_PRESS_TIME then
        let s1 : State := { s with isLoaded := true }
        if s1.wifiStatus = WlStatus.WL_CONNECTED then
          (s1, [{ topic := Topic.bucket, payload := "1", qos := 1, retain := true }])
        else (s1, [])
      else (s, [])
    else ({ s with loadButtonPressedAt := 0 }, [])

/-- The function `handle_wifi_loop`; `status` is the result of `WiFi.status()`. -/
def handle_wifi_loop (s : State) (status : WlStatus) : State × List Pub :=
  let s1 : State := { s with wifiStatus := status }
  if s1.wifiStatus ≠ s1.lastStatus then
    ({ s1 with lastStatus := s1.wifiStatus }, [])
  else (s1, [])

/-- Event identifiers the handler switches on; `other` is the `default` branch. -/
inductive MqttEvent
  | MQTT_EVENT_CONNECTED
  | MQTT_EVENT_DISCONNECTED
  | MQTT_EVENT_SUBSCRIBED
  | MQTT_EVENT_UNSUBSCRIBED
  | MQTT_EVENT_PUBLISHED
  | MQTT_EVENT_DATA
  | MQTT_EVENT_ERROR
  | other (id : Int)
  deriving DecidableEq, Repr

/-- The function `mqtt_event_handler`; `handle_mqtt_message` and the other
branches only write to the console. -/
def mqtt_event_handler (s : State) (event : MqttEvent) : State × List Pub :=
  match event with
  | MqttEvent.MQTT_EVENT_CONNECTED =>
    (s, [ { topic := Topic.status, payload := "online", qos := 1, retain := true },
          { topic := Topic.bucket,
            payload := if s.isLoaded then "1" else if s.line.bucket then "1" else "0",
            qos := 1, retain := true },
          { topic := Topic.finding, payload := boolStr s.line.emergency, qos := 1, retain := true } ])
  | _ => (s, [])

/-- Everything one iteration of `loop` samples from its collaborators. -/
structure LoopInput where
  wifi : WlStatus
  sonarMillis1 : Nat
  sonarMillis2 : Nat
  distance : Nat
  dhtMillis1 : Nat
  dhtMillis2 : Nat
  temperature_f : FloatReading
  humidity_f : FloatReading
  findPin : Nat
  loadPin : Nat
  loadMillis : Nat

/-- The function `loop`: the five monitors in their fixed order. -/
def loop (s : State) (i : LoopInput) : State × List Pub :=
  let r1 := handle_wifi_loop s i.wifi
  let r2 := handle_sonar r1.1 i.sonarMillis1 i.sonarMillis2 i.distance
  let r3 := handle_dht r2.1 i.dhtMillis1 i.dhtMillis2 i.temperature_f i.humidity_f
  let r4 := handle_find_btn r3.1 i.findPin
  let r5 := handle_load_btn r4.1 i.loadPin i.loadMillis
  (r5.1, r1.2 ++ r2.2 ++ r3.2 ++ r4.2 ++ r5.2)

/-- Repeated calls of one handler: the final state and all publications in order. -/
def run {α : Type} (step : State → α → State × List Pub) : State → List α → State × List Pub
  | s, [] => (s, [])
  | s, a :: as => ((run step (step s a).1 as).1, (step s a).2 ++ (run step (step s a).1 as).2)

/-! ## Runs and reference behaviour -/

/-- The initial state after `handle_wifi_loop` has seen the network connected. -/
def connectedInit : State := (handle_wifi_loop init WlStatus.WL_CONNECTED).1

/-- What one call of `handle_sonar` samples. -/
structure SonarPoll where
  millis1 : Nat
  millis2 : Nat
  distance : Nat

/-- One call of `handle_sonar` on the values of a poll. -/
def sonarStep (s : State) (p : SonarPoll) : State × List Pub :=
  handle_sonar s p.millis1 p.millis2 p.distance

/-- Every poll of the sequence passes the rate limit of `handle_sonar`, so that a
distance reading is taken at each of them. -/
def sonarPasses : State → List SonarPoll → Bool
  | _, [] => true
  | s, p :: ps =>
    decide (500 ≤ usub32 p.millis1 s.lastSonarCheck) && sonarPasses (sonarStep s p).1 ps

/-- Presence publications the contract of the detector calls for: going through the
readings with the presence stored so far, one retained message on the bucket topic
for each reading whose presence (reading = 0) differs from the stored one. -/
def presenceEdgePubs : Bool → List Nat → List Pub
  | _, [] => []
  | stored, d :: ds =>
    if decide (d = 0) ≠ stored then
      { topic := Topic.bucket, payload := if d = 0 then "1" else "0", qos := 1, retain := true } ::
        presenceEdgePubs (decide (d = 0)) ds
    else presenceEdgePubs stored ds

/-- What one call of `handle_load_btn` samples. -/
structure LoadPoll where
  pin : Nat
  millis : Nat

/-- One call of `handle_load_btn` on the values of a poll. -/
def loadStep (s : State) (p : LoadPoll) : State × List Pub :=
  handle_load_btn s p.pin p.millis

/-- A loop iteration at time `t` with the network connected, the DHT driver failing,
the find button released, and the given distance reading and load pin level. -/
def iterationAt (t distance loadPin : Nat) : LoopInput :=
  { wifi := WlStatus.WL_CONNECTED
    sonarMillis1 := t
    sonarMillis2 := t
    distance := distance
    dhtMillis1 := t
    dhtMillis2 := t
    temperature_f := FloatReading.nan
    humidity_f := FloatReading.nan
    findPin := 1
    loadPin := loadPin
    loadMillis := t }

/-- What one poll of the environmental sampler samples: the association state seen
by `handle_wifi_loop` in the same iteration, and the values `handle_dht` reads. -/
structure DhtPoll where
  wifi : WlStatus
  millis1 : Nat
  millis2 : Nat
  temperature_f : FloatReading
  humidity_f : FloatReading

/-- One poll: `handle_wifi_loop` followed by `handle_dht`, as in `loop`. -/
def dhtStep (s : State) (p : DhtPoll) : State × List Pub :=
  ((handle_dht (handle_wifi_loop s p.wifi).1 p.millis1 p.millis2 p.temperature_f p.humidity_f).1,
    (handle_wifi_loop s p.wifi).2 ++
      (handle_dht (handle_wifi_loop s p.wifi).1 p.millis1 p.millis2 p.temperature_f p.humidity_f).2)

/-- Rounded value of the most recent valid reading of a sequence, `v` if none is valid. -/
def lastRounded : Int → List FloatReading → Int
  | v, [] => v
  | v, FloatReading.nan :: rs => lastRounded v rs
  | _, FloatReading.val q :: rs => lastRounded (roundToInt q) rs

/-- The publications of a list made on one topic. -/
def onTopic (t : Topic) (pubs : List Pub) : List Pub := pubs.filter (fun p => decide (p.topic = t))

/-- Payload most recently published on a topic, if any. -/
def lastPayload (t : Topic) (pubs : List Pub) : Option String :=
  (onTopic t pubs).getLast?.map Pub.payload

/-- Number of raw transitions in a sequence of sampled button states: the samples that
differ from the one before them, `prev` being the state before the first sample. -/
def rawTransitions : Bool → List Bool → Nat
  | _, [] => 0
  | prev, b :: bs => rawTransitions b bs + (if b ≠ prev then 1 else 0)

/-- The connected initial state after a first asserted sample of the load button at
1000 ms: nothing present, flag clear, press pending since 1000 ms. -/
def pendingPress : State := (handle_load_btn connectedInit 0 1000).1

/-- One call of a handler together with the values it samples: the five monitors
called from `loop`, and the event callback `mqtt_event_handler`. -/
inductive Call
  | wifi_loop (status : WlStatus)
  | sonar (millis1 millis2 distance : Nat)
  | dht (millis1 millis2 : Nat) (temperature_f humidity_f : FloatReading)
  | find_btn (pin : Nat)
  | load_btn (pin millis : Nat)
  | mqtt_event (event : MqttEvent)

/-- Effect of one handler call. -/
def call (s : State) : Call → State × List Pub
  | Call.wifi_loop status => handle_wifi_loop s status
  | Call.sonar millis1 millis2 distance => handle_sonar s millis1 millis2 distance
  | Call.dht millis1 millis2 temperature_f humidity_f =>
    handle_dht s millis1 millis2 temperature_f humidity_f
  | Call.find_btn pin => handle_find_btn s pin
  | Call.load_btn pin millis => handle_load_btn s pin millis
  | Call.mqtt_event event => mqtt_event_handler s event

/-- The calls of the four publishing monitors. -/
def Call.isMonitor : Call → Bool
  | Call.sonar _ _ _ => true
  | Call.dht _ _ _ _ => true
  | Call.find_btn _ => true
  | Call.load_btn _ _ => true
  | _ => false

/-- The network state is connected at every monitor call of the sequence. -/
def monitorsConnected : State → List Call → Bool
  | _, [] => true
  | s, c :: cs =>
    (!c.isMonitor || decide (s.wifiStatus = WlStatus.WL_CONNECTED)) &&
      monitorsConnected (call s c).1 cs

/-- The connected initial state after a distance reading of 5 taken 100 ms before the
millisecond counter wraps. -/
def readBeforeWrap : State := (handle_sonar connectedInit 4294967196 4294967196 5).1

/-- A sample of the load button asserted (pin low) at time `t`. -/
def assertedAt (t : Nat) : LoadPoll := { pin := 0, millis := t }

/-- An asserted run sampled at the times `ts` that lasts at most `LOAD_PRESS_TIME`:
the times are in order, the millisecond counter does not wrap, and any two samples
are at most `LOAD_PRESS_TIME` apart. -/
def shortHold (ts : List Nat) : Prop :=
  ts.Pairwise (· ≤ ·) ∧ (∀ t ∈ ts, t < 4294967296) ∧
    ∀ t ∈ ts, ∀ u ∈ ts, u - t ≤ LOAD_PRESS_TIME

/-- The retained payloads agree with the state: the payload most recently published on
the bucket topic is "1" if the load flag or the stored presence is true and "0"
otherwise, and the one on the finding topic is "1" if the stored emergency state is
true and "0" otherwise. -/
def inSync (s : State) (pubs : List Pub) : Prop :=
  lastPayload Topic.bucket pubs = some (boolStr (s.isLoaded || s.line.bucket)) ∧
    lastPayload Topic.finding pubs = some (boolStr s.line.emergency)

/-- The state after the loop iterations at 1000 ms (load button asserted, nothing
present) and 1500 ms (object present, button released) and a distance reading of 5 at
2000 ms: presence false, flag clear, and the press timestamp of 1000 ms still stored. -/
def stalePress : State :=
  (handle_sonar (run loop init [iterationAt 1000 5 0, iterationAt 1500 0 1]).1 2000 2000 5).1

/-! ## Properties -/

/-! ### Rate-limited presence detection -/

theorem lnot_eq_decide (v : Nat) : lnot v = decide (v = 0) := by
  cases v <;> rfl

theorem handle_sonar_wifiStatus (s : State) (m1 m2 d : Nat) :
    (handle_sonar s m1 m2 d).1.wifiStatus = s.wifiStatus := by
  unfold handle_sonar
  simp only []
  split_ifs <;> rfl

theorem handle_sonar_pass_bucket (s : State) (m1 m2 d : Nat)
    (hp : 500 ≤ usub32 m1 s.lastSonarCheck) :
    (handle_sonar s m1 m2 d).1.line.bucket = decide (d = 0) := by
  unfold handle_sonar
  have : ¬ usub32 m1 s.lastSonarCheck < 500 := by omega
  simp only [this, if_false, ← lnot_eq_decide]
  split_ifs with h1 h2 <;> simp_all

theorem handle_sonar_pass_pubs (s : State) (m1 m2 d : Nat)
    (hc : s.wifiStatus = WlStatus.WL_CONNECTED) (hp : 500 ≤ usub32 m1 s.lastSonarCheck) :
    (handle_sonar s m1 m2 d).2 =
      if decide (d = 0) ≠ s.line.bucket then
        [{ topic := Topic.bucket, payload := if d = 0 then "1" else "0", qos := 1, retain := true }]
      else [] := by
  unfold handle_sonar
  have : ¬ usub32 m1 s.lastSonarCheck < 500 := by omega
  simp only [this, if_false, ← lnot_eq_decide, boolStr]
  have hd : (d = 0) ↔ lnot d = true := by simp [lnot]
  split_ifs with h1 h2 h3 h4 <;> simp_all

theorem run_sonar_pubs (polls : List SonarPoll) :
    ∀ s : State, s.wifiStatus = WlStatus.WL_CONNECTED → sonarPasses s polls = true →
      (run sonarStep s polls).2 = presenceEdgePubs s.line.bucket (polls.map SonarPoll.distance) := by
  induction polls with
  | nil => intro s _ _; rfl
  | cons p ps ih =>
    intro s hc hp
    simp only [sonarPasses, Bool.and_eq_true, decide_eq_true_eq] at hp
    obtain ⟨hp1, hp2⟩ := hp
    have hw : (sonarStep s p).1.wifiStatus = WlStatus.WL_CONNECTED := by
      rw [sonarStep, handle_sonar_wifiStatus]; exact hc
    have hb := handle_sonar_pass_bucket s p.millis1 p.millis2 p.distance hp1
    have hpub := handle_sonar_pass_pubs s p.millis1 p.millis2 p.distance hc hp1
    have ih1 := ih (sonarStep s p).1 hw hp2
    simp only [run, List.map_cons, presenceEdgePubs]
    rw [ih1]
    simp only [sonarStep] at *
    rw [hpub, hb]
    split_ifs <;> simp_all

/-- C1: from the initial state with the network connected, when every poll of a
sequence passes the rate limit of `handle_sonar`, the publications are exactly one
retained bucket message per poll whose presence (reading = 0) differs from the
presence stored before it, "1" for present and "0" for absent, and nothing at the
other polls; readings 5, 5, 0, 0, 5 give exactly "1" then "0". -/
theorem sonar_publishes_exactly_presence_edges (polls : List SonarPoll)
    (h : sonarPasses connectedInit polls = true) :
    (run sonarStep connectedInit polls).2 =
        presenceEdgePubs false (polls.map SonarPoll.distance) ∧
      (polls.map SonarPoll.distance = [5, 5, 0, 0, 5] →
        (run sonarStep connectedInit polls).2 =
          [{ topic := Topic.bucket, payload := "1", qos := 1, retain := true },
           { topic := Topic.bucket, payload := "0", qos := 1, retain := true }]) := by
  have key := run_sonar_pubs polls connectedInit rfl h
  have hb : connectedInit.line.bucket = false := rfl
  rw [hb] at key
  refine ⟨key, ?_⟩
  intro hd
  rw [key, hd]
  decide

/-- Witness for C1: five polls 500 ms apart reading 5, 5, 0, 0, 5. -/
theorem sonar_publishes_exactly_presence_edges_witness :
    sonarPasses connectedInit
        [⟨500, 500, 5⟩, ⟨1000, 1000, 5⟩, ⟨1500, 1500, 0⟩, ⟨2000, 2000, 0⟩, ⟨2500, 2500, 5⟩] = true ∧
      (run sonarStep connectedInit
        [⟨500, 500, 5⟩, ⟨1000, 1000, 5⟩, ⟨1500, 1500, 0⟩, ⟨2000, 2000, 0⟩, ⟨2500, 2500, 5⟩]).2 =
        [{ topic := Topic.bucket, payload := "1", qos := 1, retain := true },
         { topic := Topic.bucket, payload := "0", qos := 1, retain := true }] :=
  ⟨by decide,
    (sonar_publishes_exactly_presence_edges
      [⟨500, 500, 5⟩, ⟨1000, 1000, 5⟩, ⟨1500, 1500, 0⟩, ⟨2000, 2000, 0⟩, ⟨2500, 2500, 5⟩]
      (by decide)).2 rfl⟩

/-- C2: an execution of the loop in which the load flag is set by the first asserted
sample after a presence edge.  The button is sampled asserted at 1000 ms with nothing
in front of the sensor, is released while an object is present at 1500 ms, and is
asserted again at 2000 ms in the iteration where the object leaves: the timestamp of
1000 ms was kept, so the flag is set at once. -/
theorem load_flag_set_on_first_sample_after_edge :
    (run loop init [iterationAt 1000 5 0]).1.loadButtonPressedAt = 1000 ∧
      (run loop init [iterationAt 1000 5 0, iterationAt 1500 0 1]).1.line.bucket = true ∧
      (run loop init [iterationAt 1000 5 0, iterationAt 1500 0 1]).1.isLoaded = false ∧
      (run loop init [iterationAt 1000 5 0, iterationAt 1500 0 1]).1.loadButtonPressedAt = 1000 ∧
      lnot (iterationAt 1500 0 1).loadPin = false ∧
      (loop (run loop init [iterationAt 1000 5 0, iterationAt 1500 0 1]).1
        (iterationAt 2000 5 0)).1.line.bucket = false ∧
      (loop (run loop init [iterationAt 1000 5 0, iterationAt 1500 0 1]).1
        (iterationAt 2000 5 0)).1.isLoaded = true ∧
      (loop (run loop init [iterationAt 1000 5 0, iterationAt 1500 0 1]).1
        (iterationAt 2000 5 0)).2 =
        [{ topic := Topic.bucket, payload := "0", qos := 1, retain := true },
         { topic := Topic.bucket, payload := "1", qos := 1, retain := true }] := by
  decide

/-! ### Load confirmation hold -/

theorem run_load_loaded (polls : List LoadPoll) :
    ∀ s : State, s.isLoaded = true → run loadStep s polls = (s, []) := by
  induction polls with
  | nil => intro s _; rfl
  | cons p ps ih =>
    intro s hl
    have hstep : loadStep s p = (s, []) := by
      simp [loadStep, handle_load_btn, hl]
    simp only [run, hstep, ih s hl, List.append_nil]

theorem run_load_pending (t0 : Nat) (ht0 : t0 ≠ 0) (ts : List Nat) :
    ∀ s : State, s.line.bucket = false → s.isLoaded = false → s.loadButtonPressedAt = t0 →
      s.wifiStatus = WlStatus.WL_CONNECTED → (∀ t ∈ ts, t0 ≤ t ∧ t < 4294967296) →
      (run loadStep s (ts.map (fun t => ({ pin := 0, millis := t } : LoadPoll)))).1.isLoaded =
          ts.any (fun t => decide (100 < t - t0)) ∧
        (run loadStep s (ts.map (fun t => ({ pin := 0, millis := t } : LoadPoll)))).2 =
          if ts.any (fun t => decide (100 < t - t0)) = true then
            [{ topic := Topic.bucket, payload := "1", qos := 1, retain := true }]
          else [] := by
  induction ts with
  | nil => intro s _ _ _ _ _; simp [run, *]
  | cons t ts ih =>
    intro s hb hl hp hc hts
    have hts1 : ∀ u ∈ ts, t0 ≤ u ∧ u < 4294967296 := fun u hu => hts u (List.mem_cons_of_mem _ hu)
    obtain ⟨hge, hlt1⟩ := hts t (List.mem_cons_self _ _)
    have hsub : usub32 t t0 = t - t0 := by unfold usub32; omega
    simp only [List.map_cons, run, List.any_cons]
    by_cases hgt : 100 < t - t0
    · have hstep : loadStep s { pin := 0, millis := t } =
          ({ s with isLoaded := true },
            [{ topic := Topic.bucket, payload := "1", qos := 1, retain := true }]) := by
        simp [loadStep, handle_load_btn, hl, hb, hp, ht0, hsub, hgt, hc, lnot, LOAD_PRESS_TIME]
      rw [hstep, run_load_loaded _ { s with isLoaded := true } rfl]
      simp [hgt]
    · have hstep : loadStep s { pin := 0, millis := t } = (s, []) := by
        simp [loadStep, handle_load_btn, hl, hb, hp, ht0, hsub, hgt, lnot, LOAD_PRESS_TIME]
      rw [hstep]
      have := ih s hb hl hp hc hts1
      simp [this, hgt]

/-- Support for C3: when the first asserted sample is taken at a time `t0` other than
0, the hold behaves as the contract says.  With nothing present, the flag clear, no
press pending and the network connected, after asserted samples at `t0` and then at
the times `ts` (none before `t0`, no wrap of the counter) the flag is set exactly if
one of the later samples came more than 100 ms after `t0`, and then exactly one
retained "1" has been published on the bucket topic. -/
theorem load_hold_confirms_after_threshold (s : State) (t0 : Nat) (ts : List Nat)
    (hb : s.line.bucket = false) (hl : s.isLoaded = false) (hp : s.loadButtonPressedAt = 0)
    (hc : s.wifiStatus = WlStatus.WL_CONNECTED) (ht0 : t0 ≠ 0) (hlt : t0 < 4294967296)
    (hts : ∀ t ∈ ts, t0 ≤ t ∧ t < 4294967296) :
    (run loadStep s ((t0 :: ts).map (fun t => ({ pin := 0, millis := t } : LoadPoll)))).1.isLoaded =
        ts.any (fun t => decide (100 < t - t0)) ∧
      (run loadStep s ((t0 :: ts).map (fun t => ({ pin := 0, millis := t } : LoadPoll)))).2 =
        if ts.any (fun t => decide (100 < t - t0)) = true then
          [{ topic := Topic.bucket, payload := "1", qos := 1, retain := true }]
        else [] := by
  have hstep : loadStep s { pin := 0, millis := t0 } =
      ({ s with loadButtonPressedAt := t0 }, []) := by
    have hu : u32 t0 = t0 := by unfold u32; omega
    simp [loadStep, handle_load_btn, hl, hb, hp, lnot, hu]
  have key := run_load_pending t0 ht0 ts { s with loadButtonPressedAt := t0 } hb hl rfl hc hts
  simp only [List.map_cons, run, hstep, List.nil_append]
  exact key

/-- C3: a hold whose first asserted sample is taken when `millis()` reads 0.  The
sample at 101 ms is more than 100 ms after the first one, yet the flag stays clear
and nothing is published: the poll at 0 ms left the timestamp at 0, so the poll at
101 ms is taken for the first detection, and the flag is only set at 202 ms. -/
theorem load_hold_from_time_zero_not_confirmed :
    usub32 101 0 > LOAD_PRESS_TIME ∧
      (run loadStep connectedInit [⟨0, 0⟩, ⟨0, 101⟩]).1.isLoaded = false ∧
      (run loadStep connectedInit [⟨0, 0⟩, ⟨0, 101⟩]).1.loadButtonPressedAt = 101 ∧
      (run loadStep connectedInit [⟨0, 0⟩, ⟨0, 101⟩]).2 = [] ∧
      (run loadStep connectedInit [⟨0, 0⟩, ⟨0, 101⟩, ⟨0, 202⟩]).1.isLoaded = true ∧
      (run loadStep connectedInit [⟨0, 0⟩, ⟨0, 101⟩, ⟨0, 202⟩]).2 =
        [{ topic := Topic.bucket, payload := "1", qos := 1, retain := true }] := by
  decide

/-! ### Environmental sampler -/

theorem dht_temperature_state (s : State) (t : FloatReading) :
    (dht_temperature s t).1 = { s with lastTemperature := lastRounded s.lastTemperature [t] } := by
  cases t with
  | nan => rfl
  | val q =>
    simp only [dht_temperature, lastRounded]
    split_ifs with h1 h2
    · rfl
    · rfl
    · have : roundToInt q = s.lastTemperature := not_not.mp h1
      rw [this]

theorem dht_humidity_state (s : State) (h : FloatReading) :
    (dht_humidity s h).1 = { s with lastHumidity := lastRounded s.lastHumidity [h] } := by
  cases h with
  | nan => rfl
  | val q =>
    simp only [dht_humidity, lastRounded]
    split_ifs with h1 h2
    · rfl
    · rfl
    · have : roundToInt q = s.lastHumidity := not_not.mp h1
      rw [this]

theorem dht_temperature_pubs (s : State) (t : FloatReading) :
    (dht_temperature s t).2 =
      match t with
      | FloatReading.nan => []
      | FloatReading.val q =>
        if roundToInt q ≠ s.lastTemperature ∧ s.wifiStatus = WlStatus.WL_CONNECTED then
          [{ topic := Topic.temperature, payload := snprintf_d 8 (roundToInt q), qos := 1,
             retain := true }]
        else [] := by
  cases t with
  | nan => rfl
  | val q =>
    simp only [dht_temperature]
    split_ifs <;> simp_all

theorem dht_humidity_pubs (s : State) (h : FloatReading) :
    (dht_humidity s h).2 =
      match h with
      | FloatReading.nan => []
      | FloatReading.val q =>
        if roundToInt q ≠ s.lastHumidity ∧ s.wifiStatus = WlStatus.WL_CONNECTED then
          [{ topic := Topic.humidity, payload := snprintf_d 8 (roundToInt q), qos := 1,
             retain := true }]
        else [] := by
  cases h with
  | nan => rfl
  | val q =>
    simp only [dht_humidity]
    split_ifs <;> simp_all

theorem handle_dht_pass (s : State) (m1 m2 : Nat) (t h : FloatReading)
    (hp : 3000 ≤ usub32 m1 s.lastDHTCheck) :
    handle_dht s m1 m2 t h =
      ({ s with lastDHTCheck := u32 m2
                lastTemperature := lastRounded s.lastTemperature [t]
                lastHumidity := lastRounded s.lastHumidity [h] },
        (dht_temperature { s with lastDHTCheck := u32 m2 } t).2 ++
          (dht_humidity { s with lastDHTCheck := u32 m2 } h).2) := by
  have hn : ¬ usub32 m1 s.lastDHTCheck < 3000 := by omega
  simp only [handle_dht, hn, if_false, dht_temperature_state, dht_humidity_state,
    dht_temperature_pubs, dht_humidity_pubs]

theorem handle_dht_skip (s : State) (m1 m2 : Nat) (t h : FloatReading)
    (hp : usub32 m1 s.lastDHTCheck < 3000) : handle_dht s m1 m2 t h = (s, []) := by
  simp only [handle_dht, hp, if_true]

theorem handle_wifi_loop_eq (s : State) (w : WlStatus) :
    handle_wifi_loop s w = ({ s with wifiStatus := w, lastStatus := w }, []) := by
  unfold handle_wifi_loop
  by_cases h : w = s.lastStatus
  · simp [h]
  · simp [h]

theorem onTopic_temperature_humidity (s : State) (h : FloatReading) :
    onTopic Topic.temperature (dht_humidity s h).2 = [] := by
  rw [dht_humidity_pubs]
  cases h with
  | nan => rfl
  | val q => simp only []; split_ifs <;> simp [onTopic]

theorem onTopic_humidity_temperature (s : State) (t : FloatReading) :
    onTopic Topic.humidity (dht_temperature s t).2 = [] := by
  rw [dht_temperature_pubs]
  cases t with
  | nan => rfl
  | val q => simp only []; split_ifs <;> simp [onTopic]

theorem onTopic_append (t : Topic) (xs ys : List Pub) :
    onTopic t (xs ++ ys) = onTopic t xs ++ onTopic t ys := by
  simp [onTopic]

theorem roundToInt_intCast (n : Int) : roundToInt (n : ℚ) = n := by
  unfold roundToInt
  split_ifs with h
  · rw [Int.floor_eq_iff]
    constructor <;> norm_num
  · rw [Int.ceil_eq_iff]
    constructor <;> norm_num

theorem run_two (s : State) (a b : DhtPoll) :
    run dhtStep s [a, b] =
      ((dhtStep (dhtStep s a).1 b).1, (dhtStep s a).2 ++ (dhtStep (dhtStep s a).1 b).2) := by
  simp [run]

/-- C5: in every state, whatever the connectivity, a `handle_dht` call whose
temperature read is the not-a-number failure leaves `lastTemperature` as it was and
publishes nothing on the temperature topic, and one whose humidity read is the
failure leaves `lastHumidity` as it was and publishes nothing on the humidity topic. -/
theorem dht_failed_read_keeps_value_and_publishes_nothing (s : State) (m1 m2 : Nat)
    (r : FloatReading) :
    (handle_dht s m1 m2 FloatReading.nan r).1.lastTemperature = s.lastTemperature ∧
      onTopic Topic.temperature (handle_dht s m1 m2 FloatReading.nan r).2 = [] ∧
      (handle_dht s m1 m2 r FloatReading.nan).1.lastHumidity = s.lastHumidity ∧
      onTopic Topic.humidity (handle_dht s m1 m2 r FloatReading.nan).2 = [] := by
  by_cases hp : usub32 m1 s.lastDHTCheck < 3000
  · simp only [handle_dht_skip _ _ _ _ _ hp]
    exact ⟨trivial, rfl, trivial, rfl⟩
  · have hp1 : 3000 ≤ usub32 m1 s.lastDHTCheck := by omega
    simp only [handle_dht_pass _ _ _ _ _ hp1, lastRounded, onTopic_append,
      onTopic_temperature_humidity, onTopic_humidity_temperature, List.append_nil]
    refine ⟨trivial, ?_, trivial, ?_⟩
    · rfl
    · rfl

/-! ### Resynchronisation on connect -/

/-- C6: in every state the connected event makes exactly three publications, all
retained, in this order: "online" on the status topic, "1" on the bucket topic if
the load flag or the stored presence is true and "0" otherwise, and the stored
emergency state as "1" or "0" on the finding topic; the result depends on the state
alone, no event changes the state, and every other event publishes nothing. -/
theorem mqtt_connected_republishes_state (s : State) (e : MqttEvent) :
    (mqtt_event_handler s MqttEvent.MQTT_EVENT_CONNECTED).2 =
        [{ topic := Topic.status, payload := "online", qos := 1, retain := true },
         { topic := Topic.bucket,
           payload := if s.isLoaded = true ∨ s.line.bucket = true then "1" else "0",
           qos := 1, retain := true },
         { topic := Topic.finding, payload := if s.line.emergency = true then "1" else "0",
           qos := 1, retain := true }] ∧
      (mqtt_event_handler s e).1 = s ∧
      (e ≠ MqttEvent.MQTT_EVENT_CONNECTED → (mqtt_event_handler s e).2 = []) := by
  refine ⟨?_, ?_, ?_⟩
  · simp only [mqtt_event_handler, boolStr]
    cases s.isLoaded <;> cases s.line.bucket <;> simp
  · cases e <;> rfl
  · intro h
    cases e <;> first | rfl | exact absurd rfl h

/-- Witness for C6: a data event in the initial state. -/
theorem mqtt_connected_republishes_state_witness :
    MqttEvent.MQTT_EVENT_DATA ≠ MqttEvent.MQTT_EVENT_CONNECTED ∧
      (mqtt_event_handler init MqttEvent.MQTT_EVENT_DATA).2 = [] :=
  ⟨by decide,
    (mqtt_connected_republishes_state init MqttEvent.MQTT_EVENT_DATA).2.2 (by decide)⟩

/-! ### Emergency button -/

theorem handle_find_btn_wifiStatus (s : State) (pin : Nat) :
    (handle_find_btn s pin).1.wifiStatus = s.wifiStatus := by
  unfold handle_find_btn
  simp only []
  split_ifs <;> rfl

theorem handle_find_btn_emergency (s : State) (pin : Nat) :
    (handle_find_btn s pin).1.line.emergency = lnot pin := by
  unfold handle_find_btn
  simp only []
  split_ifs with h1 h2 <;> simp_all

theorem handle_find_btn_pubs (s : State) (pin : Nat)
    (hc : s.wifiStatus = WlStatus.WL_CONNECTED) :
    (handle_find_btn s pin).2 =
      if lnot pin ≠ s.line.emergency then
        [{ topic := Topic.finding, payload := boolStr (lnot pin), qos := 1, retain := true }]
      else [] := by
  unfold handle_find_btn
  simp only []
  split_ifs with h1 h2 h3 <;> simp_all

theorem alternating_range_succ (e : Bool) (n : Nat) :
    (List.range (n + 1)).map
        (fun k => ({ topic := Topic.finding, payload := boolStr (if k % 2 = 0 then !e else e),
                     qos := 1, retain := true } : Pub)) =
      { topic := Topic.finding, payload := boolStr (!e), qos := 1, retain := true } ::
        (List.range n).map
          (fun k => ({ topic := Topic.finding, payload := boolStr (if k % 2 = 0 then !(!e) else !e),
                       qos := 1, retain := true } : Pub)) := by
  rw [List.range_succ_eq_map, List.map_cons, List.map_map]
  refine congrArg₂ _ rfl ?_
  apply List.map_congr_left
  intro k _
  simp only [Function.comp]
  by_cases hk : k % 2 = 0
  · have hk1 : ¬ (k + 1) % 2 = 0 := by omega
    simp [hk, hk1]
  · have hk1 : (k + 1) % 2 = 0 := by omega
    simp [hk, hk1]

theorem run_find_btn_pubs (pins : List Nat) :
    ∀ s : State, s.wifiStatus = WlStatus.WL_CONNECTED →
      (run handle_find_btn s pins).2 =
        (List.range (rawTransitions s.line.emergency (pins.map lnot))).map
          (fun k => ({ topic := Topic.finding,
                       payload := boolStr (if k % 2 = 0 then !s.line.emergency else s.line.emergency),
                       qos := 1, retain := true } : Pub)) := by
  induction pins with
  | nil => intro s _; rfl
  | cons pin pins ih =>
    intro s hc
    have hw : (handle_find_btn s pin).1.wifiStatus = WlStatus.WL_CONNECTED := by
      rw [handle_find_btn_wifiStatus]; exact hc
    have ih1 := ih (handle_find_btn s pin).1 hw
    rw [handle_find_btn_emergency] at ih1
    simp only [run, List.map_cons, rawTransitions]
    rw [ih1, handle_find_btn_pubs s pin hc]
    by_cases hd : lnot pin = s.line.emergency
    · simp [hd]
    · have hb : lnot pin = !s.line.emergency := by
        cases h1 : lnot pin <;> cases h2 : s.line.emergency <;> simp_all
      simp only [ne_eq, hd, not_false_eq_true, if_true]
      rw [alternating_range_succ, hb]
      rfl

/-- C7: in every state and for every pin level, `handle_find_btn` takes the button as
asserted exactly when the pin reads 0; if that differs from the stored emergency
state, the stored state and the LED both take the new value whatever the
connectivity, and when connected exactly one retained message goes out on the
finding topic, "1" if asserted and "0" otherwise; if it does not differ, nothing
changes and nothing is published.  Hence, while connected, a sequence of samples with
n raw transitions yields exactly n publications whose payloads alternate, starting
with the inverse of the stored state. -/
theorem find_btn_publishes_every_raw_transition (s : State) (pin : Nat) (pins : List Nat) :
    (lnot pin = true ↔ pin = 0) ∧
      handle_find_btn s pin =
        (if lnot pin ≠ s.line.emergency then
          ({ s with line := { s.line with emergency := lnot pin }, led := lnot pin },
            if s.wifiStatus = WlStatus.WL_CONNECTED then
              [{ topic := Topic.finding, payload := if lnot pin = true then "1" else "0",
                 qos := 1, retain := true }]
            else [])
        else (s, [])) ∧
      (s.wifiStatus = WlStatus.WL_CONNECTED →
        (run handle_find_btn s pins).2.length =
            rawTransitions s.line.emergency (pins.map lnot) ∧
          (run handle_find_btn s pins).2 =
            (List.range (rawTransitions s.line.emergency (pins.map lnot))).map
              (fun k => ({ topic := Topic.finding,
                           payload :=
                             if (if k % 2 = 0 then !s.line.emergency else s.line.emergency) = true
                             then "1" else "0",
                           qos := 1, retain := true } : Pub))) := by
  refine ⟨by simp [lnot], ?_, ?_⟩
  · unfold handle_find_btn
    simp only [boolStr]
    split_ifs <;> simp_all
  · intro hc
    have h := run_find_btn_pubs pins s hc
    simp only [boolStr] at h
    refine ⟨?_, h⟩
    rw [h, List.length_map, List.length_range]

/-- Witness for C7: the button bounces pressed, released, pressed while connected. -/
theorem find_btn_publishes_every_raw_transition_witness :
    connectedInit.wifiStatus = WlStatus.WL_CONNECTED ∧
      (run handle_find_btn connectedInit [0, 1, 0]).2.length = 3 ∧
      (run handle_find_btn connectedInit [0, 1, 0]).2 =
        [{ topic := Topic.finding, payload := "1", qos := 1, retain := true },
         { topic := Topic.finding, payload := "0", qos := 1, retain := true },
         { topic := Topic.finding, payload := "1", qos := 1, retain := true }] :=
  ⟨rfl, ((find_btn_publishes_every_raw_transition connectedInit 0 [0, 1, 0]).2.2 rfl).1,
    ((find_btn_publishes_every_raw_transition connectedInit 0 [0, 1, 0]).2.2 rfl).2⟩

/-! ### Load confirmation button -/

/-- C8: in every state where the stored presence is true or the load flag is set,
`handle_load_btn` does nothing for any button level and time, whatever the
connectivity: it publishes nothing and returns the state as it was, the flag and the
pending press timestamp included. -/
theorem load_btn_is_noop_when_present_or_loaded (s : State) (pin millis : Nat)
    (h : s.line.bucket = true ∨ s.isLoaded = true) :
    handle_load_btn s pin millis = (s, []) := by
  unfold handle_load_btn
  have hb : (s.line.bucket || s.isLoaded) = true := by
    rcases h with h | h <;> simp [h]
  simp only [hb, if_true]

/-- Witness for C8: the state after a distance reading of 0, button asserted. -/
theorem load_btn_is_noop_when_present_or_loaded_witness :
    ((handle_sonar connectedInit 500 500 0).1.line.bucket = true ∨
        (handle_sonar connectedInit 500 500 0).1.isLoaded = true) ∧
      handle_load_btn (handle_sonar connectedInit 500 500 0).1 0 700 =
        ((handle_sonar connectedInit 500 500 0).1, []) :=
  ⟨Or.inl (by decide),
    load_btn_is_noop_when_present_or_loaded (handle_sonar connectedInit 500 500 0).1 0 700
      (Or.inl (by decide))⟩

/-! ### Connectivity gate -/

theorem handle_dht_wifi_frame (s : State) (w : WlStatus) (m1 m2 : Nat) (t h : FloatReading) :
    (handle_dht { s with wifiStatus := w } m1 m2 t h).1 =
      { (handle_dht s m1 m2 t h).1 with wifiStatus := w } := by
  by_cases hp : usub32 m1 s.lastDHTCheck < 3000
  · have hp1 : usub32 m1 ({ s with wifiStatus := w } : State).lastDHTCheck < 3000 := hp
    rw [handle_dht_skip _ _ _ _ _ hp, handle_dht_skip _ _ _ _ _ hp1]
  · have hp0 : 3000 ≤ usub32 m1 s.lastDHTCheck := by omega
    have hp1 : 3000 ≤ usub32 m1 ({ s with wifiStatus := w } : State).lastDHTCheck := hp0
    rw [handle_dht_pass _ _ _ _ _ hp0, handle_dht_pass _ _ _ _ _ hp1]

theorem handle_dht_disconnected (s : State) (m1 m2 : Nat) (t h : FloatReading)
    (hw : s.wifiStatus ≠ WlStatus.WL_CONNECTED) : (handle_dht s m1 m2 t h).2 = [] := by
  by_cases hp : usub32 m1 s.lastDHTCheck < 3000
  · rw [handle_dht_skip _ _ _ _ _ hp]
  · have hp0 : 3000 ≤ usub32 m1 s.lastDHTCheck := by omega
    rw [handle_dht_pass _ _ _ _ _ hp0, dht_temperature_pubs, dht_humidity_pubs]
    cases t <;> cases h <;> simp [hw]

/-- C9: with the network state not connected none of the four monitors publishes,
and nothing is kept for later: run from two states that differ only in connectivity,
on the same inputs, a monitor ends in states that again differ only in connectivity,
and the disconnected run publishes nothing.  `handle_wifi_loop` never publishes and
changes nothing but the connectivity state and its last-seen copy. -/
theorem disconnected_monitors_publish_nothing_and_queue_nothing (s : State) (w status : WlStatus)
    (m1 m2 d pin millis : Nat) (t h : FloatReading) (hw : w ≠ WlStatus.WL_CONNECTED) :
    ((handle_sonar { s with wifiStatus := w } m1 m2 d).2 = [] ∧
        (handle_dht { s with wifiStatus := w } m1 m2 t h).2 = [] ∧
        (handle_find_btn { s with wifiStatus := w } pin).2 = [] ∧
        (handle_load_btn { s with wifiStatus := w } pin millis).2 = []) ∧
      ((handle_sonar { s with wifiStatus := w } m1 m2 d).1 =
          { (handle_sonar s m1 m2 d).1 with wifiStatus := w } ∧
        (handle_dht { s with wifiStatus := w } m1 m2 t h).1 =
          { (handle_dht s m1 m2 t h).1 with wifiStatus := w } ∧
        (handle_find_btn { s with wifiStatus := w } pin).1 =
          { (handle_find_btn s pin).1 with wifiStatus := w } ∧
        (handle_load_btn { s with wifiStatus := w } pin millis).1 =
          { (handle_load_btn s pin millis).1 with wifiStatus := w }) ∧
      ((handle_wifi_loop s status).2 = [] ∧
        { (handle_wifi_loop s status).1 with
            wifiStatus := s.wifiStatus, lastStatus := s.lastStatus } = s ∧
        (handle_wifi_loop s status).1.wifiStatus = status) := by
  refine ⟨⟨?_, ?_, ?_, ?_⟩, ⟨?_, ?_, ?_, ?_⟩, ?_⟩
  · unfold handle_sonar
    simp only []
    split_ifs <;> rfl
  · exact handle_dht_disconnected _ m1 m2 t h hw
  · unfold handle_find_btn
    simp only []
    split_ifs <;> rfl
  · unfold handle_load_btn
    simp only []
    split_ifs <;> rfl
  · unfold handle_sonar
    simp only []
    split_ifs <;> rfl
  · exact handle_dht_wifi_frame s w m1 m2 t h
  · unfold handle_find_btn
    simp only []
    split_ifs <;> rfl
  · unfold handle_load_btn
    simp only []
    split_ifs <;> rfl
  · rw [handle_wifi_loop_eq]
    exact ⟨rfl, rfl, rfl⟩

/-- Witness for C9: a distance reading of 0 in the initial state publishes when
connected and does not when disconnected. -/
theorem disconnected_monitors_publish_nothing_and_queue_nothing_witness :
    WlStatus.WL_DISCONNECTED ≠ WlStatus.WL_CONNECTED ∧
      (handle_sonar { connectedInit with wifiStatus := WlStatus.WL_DISCONNECTED } 500 500 0).2 = [] ∧
      (handle_sonar { connectedInit with wifiStatus := WlStatus.WL_DISCONNECTED } 500 500 0).1 =
        { (handle_sonar connectedInit 500 500 0).1 with wifiStatus := WlStatus.WL_DISCONNECTED } ∧
      (handle_sonar connectedInit 500 500 0).2 ≠ [] :=
  ⟨by decide,
    (disconnected_monitors_publish_nothing_and_queue_nothing connectedInit
      WlStatus.WL_DISCONNECTED WlStatus.WL_CONNECTED 500 500 0 0 700 FloatReading.nan
      FloatReading.nan (by decide)).1.1,
    (disconnected_monitors_publish_nothing_and_queue_nothing connectedInit
      WlStatus.WL_DISCONNECTED WlStatus.WL_CONNECTED 500 500 0 0 700 FloatReading.nan
      FloatReading.nan (by decide)).2.1.1,
    by decide⟩

/-! ### Edge-triggered publication -/

theorem snprintf_d_of_short (size : Nat) (v : Int) (h : (toString v).length ≤ size - 1) :
    snprintf_d size v = toString v := by
  have h1 : (toString v).data.length ≤ size - 1 := h
  have h2 : (toString v).data.take (size - 1) = (toString v).data := List.take_of_length_le h1
  unfold snprintf_d
  rw [h2]

/-- C10 fails as stated: a temperature reading of 12345678 while connected is stored
as 12345678 and published as "1234567", which is not the decimal text of the stored
value. -/
theorem dht_payload_is_cut_to_seven_characters :
    (handle_dht connectedInit 3000 3000 (FloatReading.val 12345678) FloatReading.nan).1.lastTemperature
        = 12345678 ∧
      (handle_dht connectedInit 3000 3000 (FloatReading.val 12345678) FloatReading.nan).2 =
        [{ topic := Topic.temperature, payload := "1234567", qos := 1, retain := true }] ∧
      toString (12345678 : Int) = "12345678" ∧
      toString (12345678 : Int) ≠ "1234567" := by
  have r : roundToInt 12345678 = 12345678 := roundToInt_intCast 12345678
  have hs : snprintf_d 8 12345678 = "1234567" := by decide
  have hp : 3000 ≤ usub32 3000 connectedInit.lastDHTCheck := by decide
  refine ⟨?_, ?_, by decide, by decide⟩
  · rw [handle_dht_pass _ _ _ _ _ hp]
    simp [lastRounded, r]
  · rw [handle_dht_pass _ _ _ _ _ hp, dht_temperature_pubs, dht_humidity_pubs]
    simp [r, hs, connectedInit, handle_wifi_loop, init, INT_MIN]

theorem handle_dht_pubs_follow_change (s : State) (m1 m2 : Nat) (t h : FloatReading) :
    ∀ p ∈ (handle_dht s m1 m2 t h).2,
      (p.topic = Topic.temperature ∧
          (handle_dht s m1 m2 t h).1.lastTemperature ≠ s.lastTemperature ∧
          p.payload = snprintf_d 8 (handle_dht s m1 m2 t h).1.lastTemperature) ∨
        (p.topic = Topic.humidity ∧
          (handle_dht s m1 m2 t h).1.lastHumidity ≠ s.lastHumidity ∧
          p.payload = snprintf_d 8 (handle_dht s m1 m2 t h).1.lastHumidity) := by
  intro p hp
  by_cases hr : usub32 m1 s.lastDHTCheck < 3000
  · rw [handle_dht_skip _ _ _ _ _ hr] at hp
    simp at hp
  · have hp0 : 3000 ≤ usub32 m1 s.lastDHTCheck := by omega
    rw [handle_dht_pass _ _ _ _ _ hp0] at hp ⊢
    rw [dht_temperature_pubs, dht_humidity_pubs] at hp
    simp only [List.mem_append] at hp
    rcases hp with hp | hp
    · left
      cases t with
      | nan => simp at hp
      | val q =>
        simp only [] at hp
        split_ifs at hp with hc
        · simp only [List.mem_singleton] at hp
          subst hp
          exact ⟨rfl, hc.1, rfl⟩
        · simp at hp
    · right
      cases h with
      | nan => simp at hp
      | val q =>
        simp only [] at hp
        split_ifs at hp with hc
        · simp only [List.mem_singleton] at hp
          subst hp
          exact ⟨rfl, hc.1, rfl⟩
        · simp at hp

/-- C10, as amended: whenever a call of one of the four monitors publishes on a topic,
that call changed the stored value behind the topic (stored presence for
`handle_sonar`, load flag for `handle_load_btn`, stored emergency state for
`handle_find_btn`, `lastTemperature` or `lastHumidity` for `handle_dht`) and the
payload is made from the new stored value: "1" or "0" for the booleans and, for the
two readings, the decimal text of the new value cut to its first 7 characters, which
is the whole text when it has at most 7 characters.  The connected event publishes
its three messages without changing any state. -/
theorem monitor_publication_follows_change_of_stored_value (s : State)
    (m1 m2 d pin millis : Nat) (t h : FloatReading) :
    (∀ p ∈ (handle_sonar s m1 m2 d).2,
        p.topic = Topic.bucket ∧ (handle_sonar s m1 m2 d).1.line.bucket ≠ s.line.bucket ∧
          p.payload = if (handle_sonar s m1 m2 d).1.line.bucket = true then "1" else "0") ∧
      (∀ p ∈ (handle_load_btn s pin millis).2,
        p.topic = Topic.bucket ∧ (handle_load_btn s pin millis).1.isLoaded ≠ s.isLoaded ∧
          p.payload = if (handle_load_btn s pin millis).1.isLoaded = true then "1" else "0") ∧
      (∀ p ∈ (handle_find_btn s pin).2,
        p.topic = Topic.finding ∧ (handle_find_btn s pin).1.line.emergency ≠ s.line.emergency ∧
          p.payload = if (handle_find_btn s pin).1.line.emergency = true then "1" else "0") ∧
      (∀ p ∈ (handle_dht s m1 m2 t h).2,
        (p.topic = Topic.temperature ∧
            (handle_dht s m1 m2 t h).1.lastTemperature ≠ s.lastTemperature ∧
            p.payload = snprintf_d 8 (handle_dht s m1 m2 t h).1.lastTemperature) ∨
          (p.topic = Topic.humidity ∧
            (handle_dht s m1 m2 t h).1.lastHumidity ≠ s.lastHumidity ∧
            p.payload = snprintf_d 8 (handle_dht s m1 m2 t h).1.lastHumidity)) ∧
      (∀ v : Int, (toString v).length ≤ 7 → snprintf_d 8 v = toString v) ∧
      (mqtt_event_handler s MqttEvent.MQTT_EVENT_CONNECTED).1 = s ∧
      (mqtt_event_handler s MqttEvent.MQTT_EVENT_CONNECTED).2.length = 3 := by
  refine ⟨?_, ?_, ?_, handle_dht_pubs_follow_change s m1 m2 t h,
    fun v hv => snprintf_d_of_short 8 v hv, rfl, rfl⟩
  · intro p hp
    unfold handle_sonar at hp ⊢
    simp only [boolStr] at hp ⊢
    split_ifs at hp ⊢ <;> simp_all
  · intro p hp
    unfold handle_load_btn at hp ⊢
    simp only [] at hp ⊢
    split_ifs at hp ⊢ <;> simp_all
  · intro p hp
    unfold handle_find_btn at hp ⊢
    simp only [boolStr] at hp ⊢
    split_ifs at hp ⊢ <;> simp_all

theorem pendingPress_dht_24 :
    (handle_dht pendingPress 3000 3000 (FloatReading.val 24) FloatReading.nan).2 =
      [{ topic := Topic.temperature, payload := "24", qos := 1, retain := true }] := by
  have r : roundToInt 24 = 24 := roundToInt_intCast 24
  have hs : snprintf_d 8 24 = "24" := by decide
  have hp : 3000 ≤ usub32 3000 pendingPress.lastDHTCheck := by decide
  rw [handle_dht_pass _ _ _ _ _ hp, dht_temperature_pubs, dht_humidity_pubs]
  simp [r, hs, pendingPress, handle_load_btn, connectedInit, handle_wifi_loop, init, INT_MIN, lnot]

/-- Witness for C10 as amended: with a press pending since 1000 ms, a distance
reading of 0, a hold sampled at 1200 ms, a pressed find button and a temperature
reading of 24 each publish, and each changed the value behind its topic. -/
theorem monitor_publication_follows_change_of_stored_value_witness :
    ({ topic := Topic.bucket, payload := "1", qos := 1, retain := true } ∈
        (handle_sonar pendingPress 1000 1000 0).2 ∧
      (handle_sonar pendingPress 1000 1000 0).1.line.bucket ≠ pendingPress.line.bucket) ∧
    ({ topic := Topic.bucket, payload := "1", qos := 1, retain := true } ∈
        (handle_load_btn pendingPress 0 1200).2 ∧
      (handle_load_btn pendingPress 0 1200).1.isLoaded ≠ pendingPress.isLoaded) ∧
    ({ topic := Topic.finding, payload := "1", qos := 1, retain := true } ∈
        (handle_find_btn pendingPress 0).2 ∧
      (handle_find_btn pendingPress 0).1.line.emergency ≠ pendingPress.line.emergency) ∧
    ({ topic := Topic.temperature, payload := "24", qos := 1, retain := true } ∈
        (handle_dht pendingPress 3000 3000 (FloatReading.val 24) FloatReading.nan).2 ∧
      ("24" = snprintf_d 8
          (handle_dht pendingPress 3000 3000 (FloatReading.val 24)
            FloatReading.nan).1.lastTemperature ∨
        "24" = snprintf_d 8
          (handle_dht pendingPress 3000 3000 (FloatReading.val 24)
            FloatReading.nan).1.lastHumidity)) ∧
    ((toString (24 : Int)).length ≤ 7 ∧ snprintf_d 8 24 = toString (24 : Int)) :=
  ⟨⟨by decide,
      ((monitor_publication_follows_change_of_stored_value pendingPress 1000 1000 0 0 1200
        (FloatReading.val 24) FloatReading.nan).1
          { topic := Topic.bucket, payload := "1", qos := 1, retain := true } (by decide)).2.1⟩,
    ⟨by decide,
      ((monitor_publication_follows_change_of_stored_value pendingPress 1000 1000 0 0 1200
        (FloatReading.val 24) FloatReading.nan).2.1
          { topic := Topic.bucket, payload := "1", qos := 1, retain := true } (by decide)).2.1⟩,
    ⟨by decide,
      ((monitor_publication_follows_change_of_stored_value pendingPress 1000 1000 0 0 1200
        (FloatReading.val 24) FloatReading.nan).2.2.1
          { topic := Topic.finding, payload := "1", qos := 1, retain := true } (by decide)).2.1⟩,
    ⟨by rw [pendingPress_dht_24]; exact List.mem_singleton.mpr rfl,
      ((monitor_publication_follows_change_of_stored_value pendingPress 3000 3000 0 0 1200
        (FloatReading.val 24) FloatReading.nan).2.2.2.1
          { topic := Topic.temperature, payload := "24", qos := 1, retain := true }
          (by rw [pendingPress_dht_24]; exact List.mem_singleton.mpr rfl)).elim
        (fun h => Or.inl h.2.2) (fun h => Or.inr h.2.2)⟩,
    ⟨by decide,
      (monitor_publication_follows_change_of_stored_value pendingPress 1000 1000 0 0 1200
        (FloatReading.val 24) FloatReading.nan).2.2.2.2.1 24 (by decide)⟩⟩

/-! ### Load flag and presence -/

theorem handle_sonar_isLoaded_of_edge (s : State) (m1 m2 d : Nat)
    (h : (handle_sonar s m1 m2 d).1.line.bucket ≠ s.line.bucket) :
    (handle_sonar s m1 m2 d).1.isLoaded = false := by
  unfold handle_sonar at h ⊢
  simp only [] at h ⊢
  split_ifs at h ⊢ <;> simp_all

theorem handle_sonar_isLoaded_of_no_edge (s : State) (m1 m2 d : Nat)
    (h : (handle_sonar s m1 m2 d).1.line.bucket = s.line.bucket) :
    (handle_sonar s m1 m2 d).1.isLoaded = s.isLoaded := by
  unfold handle_sonar at h ⊢
  simp only [] at h ⊢
  split_ifs at h ⊢ with h1 h2 h3 <;> simp_all

theorem handle_dht_frame (s : State) (m1 m2 : Nat) (t h : FloatReading) :
    { (handle_dht s m1 m2 t h).1 with
        lastTemperature := s.lastTemperature
        lastHumidity := s.lastHumidity
        lastDHTCheck := s.lastDHTCheck } = s := by
  by_cases hp : usub32 m1 s.lastDHTCheck < 3000
  · rw [handle_dht_skip _ _ _ _ _ hp]
  · have hp0 : 3000 ≤ usub32 m1 s.lastDHTCheck := by omega
    rw [handle_dht_pass _ _ _ _ _ hp0]

theorem handle_load_btn_of_loaded (s : State) (pin millis : Nat) (h : s.isLoaded = true) :
    handle_load_btn s pin millis = (s, []) := by
  simp [handle_load_btn, h]

/-- C11: the load flag is cleared exactly by presence edges.  Every `handle_sonar`
call that changes the stored presence leaves the flag false; and from a state where
the flag is true, no call of `handle_load_btn`, `handle_find_btn`, `handle_dht`,
`handle_wifi_loop` or `mqtt_event_handler`, and no call of `handle_sonar` that leaves
the stored presence as it was, makes it false. -/
theorem load_flag_cleared_exactly_by_presence_edges (s : State) (m1 m2 d pin millis : Nat)
    (t h : FloatReading) (status : WlStatus) (e : MqttEvent) :
    ((handle_sonar s m1 m2 d).1.line.bucket ≠ s.line.bucket →
        (handle_sonar s m1 m2 d).1.isLoaded = false) ∧
      (s.isLoaded = true →
        (handle_load_btn s pin millis).1.isLoaded = true ∧
          (handle_find_btn s pin).1.isLoaded = true ∧
          (handle_dht s m1 m2 t h).1.isLoaded = true ∧
          (handle_wifi_loop s status).1.isLoaded = true ∧
          (mqtt_event_handler s e).1.isLoaded = true ∧
          ((handle_sonar s m1 m2 d).1.line.bucket = s.line.bucket →
            (handle_sonar s m1 m2 d).1.isLoaded = true)) := by
  refine ⟨handle_sonar_isLoaded_of_edge s m1 m2 d, ?_⟩
  intro hl
  refine ⟨?_, ?_, ?_, ?_, ?_, ?_⟩
  · rw [handle_load_btn_of_loaded s pin millis hl]
    exact hl
  · unfold handle_find_btn
    simp only []
    split_ifs <;> exact hl
  · have := congrArg State.isLoaded (handle_dht_frame s m1 m2 t h)
    exact this.trans hl
  · rw [handle_wifi_loop_eq]
    exact hl
  · cases e <;> exact hl
  · intro hb
    rw [handle_sonar_isLoaded_of_no_edge s m1 m2 d hb]
    exact hl

/-- Witness for C11: with the flag set by a hold, a distance reading of 0 is a presence
edge and clears the flag, while a reading of 5 leaves the presence and the flag. -/
theorem load_flag_cleared_exactly_by_presence_edges_witness :
    ((handle_sonar (handle_load_btn pendingPress 0 1200).1 1700 1700 0).1.line.bucket ≠
        (handle_load_btn pendingPress 0 1200).1.line.bucket ∧
      (handle_sonar (handle_load_btn pendingPress 0 1200).1 1700 1700 0).1.isLoaded = false) ∧
    ((handle_load_btn pendingPress 0 1200).1.isLoaded = true ∧
      (handle_sonar (handle_load_btn pendingPress 0 1200).1 1700 1700 5).1.line.bucket =
        (handle_load_btn pendingPress 0 1200).1.line.bucket ∧
      (handle_sonar (handle_load_btn pendingPress 0 1200).1 1700 1700 5).1.isLoaded = true ∧
      (handle_load_btn (handle_load_btn pendingPress 0 1200).1 1 1300).1.isLoaded = true) :=
  ⟨⟨by decide,
      (load_flag_cleared_exactly_by_presence_edges (handle_load_btn pendingPress 0 1200).1
        1700 1700 0 1 1300 FloatReading.nan FloatReading.nan WlStatus.WL_CONNECTED
        MqttEvent.MQTT_EVENT_DATA).1 (by decide)⟩,
    ⟨by decide, by decide,
      ((load_flag_cleared_exactly_by_presence_edges (handle_load_btn pendingPress 0 1200).1
        1700 1700 5 1 1300 FloatReading.nan FloatReading.nan WlStatus.WL_CONNECTED
        MqttEvent.MQTT_EVENT_DATA).2 (by decide)).2.2.2.2.2 (by decide),
      ((load_flag_cleared_exactly_by_presence_edges (handle_load_btn pendingPress 0 1200).1
        1700 1700 5 1 1300 FloatReading.nan FloatReading.nan WlStatus.WL_CONNECTED
        MqttEvent.MQTT_EVENT_DATA).2 (by decide)).1⟩⟩

/-! ### Ownership of the state -/

/-- C16: each piece of state is changed only by its owning monitor.  In every state
and for every input, `handle_sonar` changes at most the stored presence, the load
flag and its last-poll time; `handle_find_btn` at most the stored emergency state and
the LED; `handle_load_btn` at most the load flag and its pending press timestamp;
`handle_dht` at most `lastTemperature`, `lastHumidity` and its last-poll time; and
`mqtt_event_handler` changes nothing. -/
theorem state_changed_only_by_owning_monitor (s : State) (m1 m2 d pin millis : Nat)
    (t h : FloatReading) (e : MqttEvent) :
    { (handle_sonar s m1 m2 d).1 with
        line := { (handle_sonar s m1 m2 d).1.line with bucket := s.line.bucket }
        isLoaded := s.isLoaded
        lastSonarCheck := s.lastSonarCheck } = s ∧
      { (handle_find_btn s pin).1 with
        line := { (handle_find_btn s pin).1.line with emergency := s.line.emergency }
        led := s.led } = s ∧
      { (handle_load_btn s pin millis).1 with
        isLoaded := s.isLoaded
        loadButtonPressedAt := s.loadButtonPressedAt } = s ∧
      { (handle_dht s m1 m2 t h).1 with
        lastTemperature := s.lastTemperature
        lastHumidity := s.lastHumidity
        lastDHTCheck := s.lastDHTCheck } = s ∧
      (mqtt_event_handler s e).1 = s := by
  refine ⟨?_, ?_, ?_, handle_dht_frame s m1 m2 t h, ?_⟩
  · unfold handle_sonar
    simp only []
    split_ifs <;> rfl
  · unfold handle_find_btn
    simp only []
    split_ifs <;> rfl
  · unfold handle_load_btn
    simp only []
    split_ifs <;> rfl
  · cases e <;> rfl

/-! ### Flag and presence are never both set -/

theorem call_keeps_flag_presence_exclusive (s : State) (c : Call)
    (h : ¬ (s.isLoaded = true ∧ s.line.bucket = true)) :
    ¬ ((call s c).1.isLoaded = true ∧ (call s c).1.line.bucket = true) := by
  cases c with
  | wifi_loop status =>
    simp only [call, handle_wifi_loop_eq]
    exact h
  | sonar m1 m2 d =>
    simp only [call]
    by_cases hb : (handle_sonar s m1 m2 d).1.line.bucket = s.line.bucket
    · rw [handle_sonar_isLoaded_of_no_edge s m1 m2 d hb, hb]
      exact h
    · rw [handle_sonar_isLoaded_of_edge s m1 m2 d hb]
      simp
  | dht m1 m2 t hh =>
    simp only [call]
    have hf := handle_dht_frame s m1 m2 t hh
    have h1 := congrArg State.isLoaded hf
    have h2 := congrArg (fun x => x.line.bucket) hf
    simp only [] at h1 h2
    rw [h1, h2]
    exact h
  | find_btn pin =>
    simp only [call]
    unfold handle_find_btn
    simp only []
    split_ifs <;> exact h
  | load_btn pin millis =>
    simp only [call]
    unfold handle_load_btn
    simp only []
    split_ifs with h1 h2 h3 h4 <;> simp_all
  | mqtt_event e =>
    simp only [call]
    cases e <;> exact h

theorem run_keeps_flag_presence_exclusive (cs : List Call) :
    ∀ s : State, ¬ (s.isLoaded = true ∧ s.line.bucket = true) →
      ¬ ((run call s cs).1.isLoaded = true ∧ (run call s cs).1.line.bucket = true) := by
  induction cs with
  | nil => intro s h; exact h
  | cons c cs ih =>
    intro s h
    simp only [run]
    exact ih (call s c).1 (call_keeps_flag_presence_exclusive s c h)

/-- C17: in every state reached from the initial state by any sequence of calls of
`handle_wifi_loop`, `handle_sonar`, `handle_dht`, `handle_find_btn`, `handle_load_btn`
and `mqtt_event_handler` with arbitrary inputs, the load flag and the stored presence
are not both true. -/
theorem load_flag_and_presence_never_both_true (cs : List Call) :
    ¬ ((run call init cs).1.isLoaded = true ∧ (run call init cs).1.line.bucket = true) :=
  run_keeps_flag_presence_exclusive cs init (by decide)

/-! ### Rate limits -/

theorem usub32_of_elapsed (T0 T1 : Nat) (h01 : T0 ≤ T1) (hlt : T1 - T0 < 4294967296) :
    usub32 (u32 T1) (u32 T0) = T1 - T0 := by
  unfold usub32 u32
  omega

theorem handle_sonar_skip (s : State) (m1 m2 d : Nat) (h : usub32 m1 s.lastSonarCheck < 500) :
    handle_sonar s m1 m2 d = (s, []) := by
  simp only [handle_sonar, h, if_true]

theorem handle_sonar_pass_check (s : State) (m1 m2 d : Nat)
    (h : 500 ≤ usub32 m1 s.lastSonarCheck) :
    (handle_sonar s m1 m2 d).1.lastSonarCheck = u32 m2 := by
  have hn : ¬ usub32 m1 s.lastSonarCheck < 500 := by omega
  unfold handle_sonar
  simp only [hn, if_false]
  split_ifs <;> rfl

theorem usub32_le_elapsed (T0 T1 : Nat) (h01 : T0 ≤ T1) :
    usub32 (u32 T1) (u32 T0) ≤ T1 - T0 := by
  unfold usub32 u32
  omega

/-- C13: `handle_sonar` takes a distance reading only when `millis()` minus the stored
time of its previous reading, taken modulo `2^32`, is at least 500; otherwise it
returns with the state unchanged and nothing published.  So when the previous reading
was stored at time `T0` and the call is made at a later time `T1`, the counter showing
each time modulo `2^32`: the call does nothing if fewer than 500 ms have elapsed;
whenever it reads, at least 500 ms have elapsed, also when the counter wrapped in
between; and if at least 500 and fewer than `2^32` ms have elapsed it reads, storing
the time and the presence of the reading.  `handle_dht` does the same with 3000 ms. -/
theorem polls_are_rate_limited (s : State) (m1 m2 d : Nat) (t h : FloatReading) (T0 T1 : Nat) :
    ((usub32 m1 s.lastSonarCheck < 500 → handle_sonar s m1 m2 d = (s, [])) ∧
      (500 ≤ usub32 m1 s.lastSonarCheck →
        (handle_sonar s m1 m2 d).1.lastSonarCheck = u32 m2 ∧
          (handle_sonar s m1 m2 d).1.line.bucket = lnot d) ∧
      (T0 ≤ T1 → s.lastSonarCheck = u32 T0 →
        (T1 - T0 < 500 → handle_sonar s (u32 T1) m2 d = (s, [])) ∧
          (500 ≤ usub32 (u32 T1) s.lastSonarCheck → 500 ≤ T1 - T0) ∧
          (T1 - T0 < 4294967296 → 500 ≤ T1 - T0 →
            (handle_sonar s (u32 T1) m2 d).1.lastSonarCheck = u32 m2 ∧
              (handle_sonar s (u32 T1) m2 d).1.line.bucket = lnot d))) ∧
    ((usub32 m1 s.lastDHTCheck < 3000 → handle_dht s m1 m2 t h = (s, [])) ∧
      (3000 ≤ usub32 m1 s.lastDHTCheck →
        (handle_dht s m1 m2 t h).1.lastDHTCheck = u32 m2 ∧
          (handle_dht s m1 m2 t h).1.lastTemperature = lastRounded s.lastTemperature [t] ∧
          (handle_dht s m1 m2 t h).1.lastHumidity = lastRounded s.lastHumidity [h]) ∧
      (T0 ≤ T1 → s.lastDHTCheck = u32 T0 →
        (T1 - T0 < 3000 → handle_dht s (u32 T1) m2 t h = (s, [])) ∧
          (3000 ≤ usub32 (u32 T1) s.lastDHTCheck → 3000 ≤ T1 - T0) ∧
          (T1 - T0 < 4294967296 → 3000 ≤ T1 - T0 →
            (handle_dht s (u32 T1) m2 t h).1.lastDHTCheck = u32 m2 ∧
              (handle_dht s (u32 T1) m2 t h).1.lastTemperature =
                lastRounded s.lastTemperature [t] ∧
              (handle_dht s (u32 T1) m2 t h).1.lastHumidity =
                lastRounded s.lastHumidity [h]))) := by
  have sonarPass : ∀ m : Nat, 500 ≤ usub32 m s.lastSonarCheck →
      (handle_sonar s m m2 d).1.lastSonarCheck = u32 m2 ∧
        (handle_sonar s m m2 d).1.line.bucket = lnot d := by
    intro m hm
    refine ⟨handle_sonar_pass_check s m m2 d hm, ?_⟩
    rw [handle_sonar_pass_bucket s m m2 d hm, lnot_eq_decide]
  have dhtPass : ∀ m : Nat, 3000 ≤ usub32 m s.lastDHTCheck →
      (handle_dht s m m2 t h).1.lastDHTCheck = u32 m2 ∧
        (handle_dht s m m2 t h).1.lastTemperature = lastRounded s.lastTemperature [t] ∧
        (handle_dht s m m2 t h).1.lastHumidity = lastRounded s.lastHumidity [h] := by
    intro m hm
    rw [handle_dht_pass _ _ _ _ _ hm]
    exact ⟨rfl, rfl, rfl⟩
  refine ⟨⟨handle_sonar_skip s m1 m2 d, sonarPass m1, ?_⟩,
    ⟨handle_dht_skip s m1 m2 t h, dhtPass m1, ?_⟩⟩
  · intro h01 hs
    have hle : usub32 (u32 T1) s.lastSonarCheck ≤ T1 - T0 := by
      rw [hs]; exact usub32_le_elapsed T0 T1 h01
    refine ⟨fun hlt5 => handle_sonar_skip s _ m2 d (by omega), fun hge => by omega,
      fun hlt hge => sonarPass _ ?_⟩
    have he : usub32 (u32 T1) s.lastSonarCheck = T1 - T0 := by
      rw [hs]; exact usub32_of_elapsed T0 T1 h01 hlt
    omega
  · intro h01 hs
    have hle : usub32 (u32 T1) s.lastDHTCheck ≤ T1 - T0 := by
      rw [hs]; exact usub32_le_elapsed T0 T1 h01
    refine ⟨fun hlt5 => handle_dht_skip s _ m2 t h (by omega), fun hge => by omega,
      fun hlt hge => dhtPass _ ?_⟩
    have he : usub32 (u32 T1) s.lastDHTCheck = T1 - T0 := by
      rw [hs]; exact usub32_of_elapsed T0 T1 h01 hlt
    omega

/-- Witness for C13: a reading stored 100 ms before the counter wraps; the call
499 ms after it (counter at 399) does nothing, the call 500 ms after it (counter at
400) reads; and in the initial state `handle_dht` does nothing at 2999 ms and reads
at 3000 ms. -/
theorem polls_are_rate_limited_witness :
    (usub32 399 readBeforeWrap.lastSonarCheck < 500 ∧
      handle_sonar readBeforeWrap 399 399 0 = (readBeforeWrap, [])) ∧
    (500 ≤ usub32 400 readBeforeWrap.lastSonarCheck ∧
      (handle_sonar readBeforeWrap 400 400 0).1.lastSonarCheck = u32 400 ∧
      (handle_sonar readBeforeWrap 400 400 0).1.line.bucket = lnot 0) ∧
    ((4294967196 ≤ 4294967695 ∧ readBeforeWrap.lastSonarCheck = u32 4294967196 ∧
        4294967695 - 4294967196 < 500) ∧
      handle_sonar readBeforeWrap (u32 4294967695) 399 0 = (readBeforeWrap, [])) ∧
    ((4294967196 ≤ 4294967696 ∧ readBeforeWrap.lastSonarCheck = u32 4294967196 ∧
        500 ≤ usub32 (u32 4294967696) readBeforeWrap.lastSonarCheck) ∧
      500 ≤ 4294967696 - 4294967196) ∧
    ((4294967696 - 4294967196 < 4294967296 ∧ 500 ≤ 4294967696 - 4294967196) ∧
      (handle_sonar readBeforeWrap (u32 4294967696) 400 0).1.lastSonarCheck = u32 400 ∧
      (handle_sonar readBeforeWrap (u32 4294967696) 400 0).1.line.bucket = lnot 0) ∧
    (usub32 2999 connectedInit.lastDHTCheck < 3000 ∧
      handle_dht connectedInit 2999 2999 FloatReading.nan FloatReading.nan =
        (connectedInit, [])) ∧
    (3000 ≤ usub32 3000 connectedInit.lastDHTCheck ∧
      (handle_dht connectedInit 3000 3000 FloatReading.nan
        FloatReading.nan).1.lastDHTCheck = u32 3000) ∧
    ((0 ≤ 2999 ∧ connectedInit.lastDHTCheck = u32 0 ∧ 2999 - 0 < 3000) ∧
      handle_dht connectedInit (u32 2999) 2999 FloatReading.nan FloatReading.nan =
        (connectedInit, [])) ∧
    ((0 ≤ 3000 ∧ connectedInit.lastDHTCheck = u32 0 ∧
        3000 ≤ usub32 (u32 3000) connectedInit.lastDHTCheck) ∧
      3000 ≤ 3000 - 0) ∧
    ((3000 - 0 < 4294967296 ∧ 3000 ≤ 3000 - 0) ∧
      (handle_dht connectedInit (u32 3000) 3000 FloatReading.nan
        FloatReading.nan).1.lastDHTCheck = u32 3000) :=
  ⟨⟨by decide,
      (polls_are_rate_limited readBeforeWrap 399 399 0 FloatReading.nan FloatReading.nan
        4294967196 4294967695).1.1 (by decide)⟩,
    ⟨by decide,
      (polls_are_rate_limited readBeforeWrap 400 400 0 FloatReading.nan FloatReading.nan
        4294967196 4294967696).1.2.1 (by decide)⟩,
    ⟨⟨by decide, by decide, by decide⟩,
      ((polls_are_rate_limited readBeforeWrap 399 399 0 FloatReading.nan FloatReading.nan
        4294967196 4294967695).1.2.2 (by decide) (by decide)).1 (by decide)⟩,
    ⟨⟨by decide, by decide, by decide⟩,
      ((polls_are_rate_limited readBeforeWrap 400 400 0 FloatReading.nan FloatReading.nan
        4294967196 4294967696).1.2.2 (by decide) (by decide)).2.1 (by decide)⟩,
    ⟨⟨by decide, by decide⟩,
      ((polls_are_rate_limited readBeforeWrap 400 400 0 FloatReading.nan FloatReading.nan
        4294967196 4294967696).1.2.2 (by decide) (by decide)).2.2 (by decide) (by decide)⟩,
    ⟨by decide,
      (polls_are_rate_limited connectedInit 2999 2999 0 FloatReading.nan FloatReading.nan
        0 2999).2.1 (by decide)⟩,
    ⟨by decide,
      ((polls_are_rate_limited connectedInit 3000 3000 0 FloatReading.nan FloatReading.nan
        0 3000).2.2.1 (by decide)).1⟩,
    ⟨⟨by decide, by decide, by decide⟩,
      ((polls_are_rate_limited connectedInit 2999 2999 0 FloatReading.nan FloatReading.nan
        0 2999).2.2.2 (by decide) (by decide)).1 (by decide)⟩,
    ⟨⟨by decide, by decide, by decide⟩,
      ((polls_are_rate_limited connectedInit 3000 3000 0 FloatReading.nan FloatReading.nan
        0 3000).2.2.2 (by decide) (by decide)).2.1 (by decide)⟩,
    ⟨⟨by decide, by decide⟩,
      (((polls_are_rate_limited connectedInit 3000 3000 0 FloatReading.nan FloatReading.nan
        0 3000).2.2.2 (by decide) (by decide)).2.2 (by decide) (by decide)).1⟩⟩

/-! ### Published readings without repeats -/

theorem handle_dht_pass_onTopic (s : State) (m1 m2 : Nat) (t h : FloatReading)
    (hp : 3000 ≤ usub32 m1 s.lastDHTCheck) :
    onTopic Topic.temperature (handle_dht s m1 m2 t h).2 =
        (match t with
          | FloatReading.nan => []
          | FloatReading.val q =>
            if roundToInt q ≠ s.lastTemperature ∧ s.wifiStatus = WlStatus.WL_CONNECTED then
              [{ topic := Topic.temperature, payload := snprintf_d 8 (roundToInt q), qos := 1,
                 retain := true }]
            else []) ∧
      onTopic Topic.humidity (handle_dht s m1 m2 t h).2 =
        (match h with
          | FloatReading.nan => []
          | FloatReading.val q =>
            if roundToInt q ≠ s.lastHumidity ∧ s.wifiStatus = WlStatus.WL_CONNECTED then
              [{ topic := Topic.humidity, payload := snprintf_d 8 (roundToInt q), qos := 1,
                 retain := true }]
            else []) := by
  rw [handle_dht_pass _ _ _ _ _ hp]
  simp only [onTopic_append, onTopic_temperature_humidity, onTopic_humidity_temperature,
    List.append_nil, List.nil_append]
  rw [dht_temperature_pubs, dht_humidity_pubs]
  constructor
  · cases t with
    | nan => rfl
    | val q => simp only []; split_ifs <;> simp [onTopic]
  · cases h with
    | nan => rfl
    | val q => simp only []; split_ifs <;> simp [onTopic]

/-- C15: within `handle_dht` the two quantities are handled independently.  For two
calls that take readings, the new `lastTemperature` and the temperature publications
agree as soon as the temperature reading, the old `lastTemperature` and the
connectivity agree, whatever the humidity readings and the rest of the state; and
likewise for humidity.  In particular, when connected, a valid humidity reading that
differs from the stored one is stored and published although the temperature read
failed, and the other way round. -/
theorem dht_temperature_and_humidity_independent (s s' : State) (m1 m2 m1' m2' : Nat)
    (r o o' : FloatReading) (q : ℚ) (hp : 3000 ≤ usub32 m1 s.lastDHTCheck)
    (hp' : 3000 ≤ usub32 m1' s'.lastDHTCheck) (hw : s.wifiStatus = s'.wifiStatus) :
    (s.lastTemperature = s'.lastTemperature →
        (handle_dht s m1 m2 r o).1.lastTemperature =
            (handle_dht s' m1' m2' r o').1.lastTemperature ∧
          onTopic Topic.temperature (handle_dht s m1 m2 r o).2 =
            onTopic Topic.temperature (handle_dht s' m1' m2' r o').2) ∧
      (s.lastHumidity = s'.lastHumidity →
        (handle_dht s m1 m2 o r).1.lastHumidity =
            (handle_dht s' m1' m2' o' r).1.lastHumidity ∧
          onTopic Topic.humidity (handle_dht s m1 m2 o r).2 =
            onTopic Topic.humidity (handle_dht s' m1' m2' o' r).2) ∧
      (s.wifiStatus = WlStatus.WL_CONNECTED → roundToInt q ≠ s.lastHumidity →
        (handle_dht s m1 m2 FloatReading.nan (FloatReading.val q)).1.lastHumidity =
            roundToInt q ∧
          onTopic Topic.humidity
              (handle_dht s m1 m2 FloatReading.nan (FloatReading.val q)).2 =
            [{ topic := Topic.humidity, payload := snprintf_d 8 (roundToInt q), qos := 1,
               retain := true }]) ∧
      (s.wifiStatus = WlStatus.WL_CONNECTED → roundToInt q ≠ s.lastTemperature →
        (handle_dht s m1 m2 (FloatReading.val q) FloatReading.nan).1.lastTemperature =
            roundToInt q ∧
          onTopic Topic.temperature
              (handle_dht s m1 m2 (FloatReading.val q) FloatReading.nan).2 =
            [{ topic := Topic.temperature, payload := snprintf_d 8 (roundToInt q), qos := 1,
               retain := true }]) := by
  refine ⟨?_, ?_, ?_, ?_⟩
  · intro hl
    rw [(handle_dht_pass_onTopic s m1 m2 r o hp).1, (handle_dht_pass_onTopic s' m1' m2' r o' hp').1,
      handle_dht_pass _ _ _ _ _ hp, handle_dht_pass _ _ _ _ _ hp']
    simp only [hl, hw, and_self]
  · intro hl
    rw [(handle_dht_pass_onTopic s m1 m2 o r hp).2, (handle_dht_pass_onTopic s' m1' m2' o' r hp').2,
      handle_dht_pass _ _ _ _ _ hp, handle_dht_pass _ _ _ _ _ hp']
    simp only [hl, hw, and_self]
  · intro hc hne
    rw [(handle_dht_pass_onTopic s m1 m2 _ _ hp).2, handle_dht_pass _ _ _ _ _ hp]
    simp [lastRounded, hc, hne]
  · intro hc hne
    rw [(handle_dht_pass_onTopic s m1 m2 _ _ hp).1, handle_dht_pass _ _ _ _ _ hp]
    simp [lastRounded, hc, hne]

theorem roundToInt_55_ne_stored : roundToInt 55 ≠ connectedInit.lastHumidity := by
  have h : roundToInt 55 = 55 := roundToInt_intCast 55
  rw [h]
  decide

/-- Witness for C15: two calls reading temperature 24, one with the humidity read
failing and one reading humidity 55 from a state with a press pending, publish the
same on the temperature topic; and a humidity reading of 55 is stored although the
temperature read failed. -/
theorem dht_temperature_and_humidity_independent_witness :
    (3000 ≤ usub32 3000 connectedInit.lastDHTCheck ∧
        3000 ≤ usub32 6000 pendingPress.lastDHTCheck ∧
        connectedInit.wifiStatus = pendingPress.wifiStatus ∧
        connectedInit.lastTemperature = pendingPress.lastTemperature) ∧
      onTopic Topic.temperature
          (handle_dht connectedInit 3000 3000 (FloatReading.val 24) FloatReading.nan).2 =
        onTopic Topic.temperature
          (handle_dht pendingPress 6000 6000 (FloatReading.val 24) (FloatReading.val 55)).2 ∧
      (connectedInit.wifiStatus = WlStatus.WL_CONNECTED ∧
        roundToInt 55 ≠ connectedInit.lastHumidity) ∧
      (handle_dht connectedInit 3000 3000 FloatReading.nan
          (FloatReading.val 55)).1.lastHumidity = roundToInt 55 ∧
      onTopic Topic.humidity
          (handle_dht connectedInit 3000 3000 FloatReading.nan (FloatReading.val 55)).2 =
        [{ topic := Topic.humidity, payload := snprintf_d 8 (roundToInt 55), qos := 1,
           retain := true }] :=
  ⟨⟨by decide, by decide, by decide, by decide⟩,
    ((dht_temperature_and_humidity_independent connectedInit pendingPress 3000 3000 6000 6000
      (FloatReading.val 24) FloatReading.nan (FloatReading.val 55) 55 (by decide) (by decide)
      (by decide)).1 (by decide)).2,
    ⟨by decide, roundToInt_55_ne_stored⟩,
    (dht_temperature_and_humidity_independent connectedInit pendingPress 3000 3000 6000 6000
      (FloatReading.val 24) FloatReading.nan (FloatReading.val 55) 55 (by decide) (by decide)
      (by decide)).2.2.1 (by decide) roundToInt_55_ne_stored⟩

/-! ### Release resets the pending press -/

theorem run_append {α : Type} (step : State → α → State × List Pub) (xs ys : List α) :
    ∀ s : State, run step s (xs ++ ys) =
      ((run step (run step s xs).1 ys).1, (run step s xs).2 ++ (run step (run step s xs).1 ys).2) := by
  induction xs with
  | nil => intro s; simp [run]
  | cons x xs ih => intro s; simp [run, ih, List.append_assoc]

theorem handle_load_btn_released (s : State) (pin millis : Nat) (hb : s.line.bucket = false)
    (hl : s.isLoaded = false) (hr : lnot pin = false) :
    handle_load_btn s pin millis = ({ s with loadButtonPressedAt := 0 }, []) := by
  simp [handle_load_btn, hb, hl, hr]

theorem run_load_released (gap : List LoadPoll) :
    ∀ s : State, s.line.bucket = false → s.isLoaded = false →
      (∀ p ∈ gap, lnot p.pin = false) →
      (run loadStep s gap).2 = [] ∧ (run loadStep s gap).1.isLoaded = false ∧
        (run loadStep s gap).1.line.bucket = false ∧
        (gap ≠ [] → (run loadStep s gap).1.loadButtonPressedAt = 0) := by
  induction gap with
  | nil => intro s hb hl _; exact ⟨rfl, hl, hb, fun h => absurd rfl h⟩
  | cons p ps ih =>
    intro s hb hl hr
    have hstep : loadStep s p = ({ s with loadButtonPressedAt := 0 }, []) :=
      handle_load_btn_released s p.pin p.millis hb hl (hr p (List.mem_cons_self _ _))
    obtain ⟨i1, i2, i3, i4⟩ := ih { s with loadButtonPressedAt := 0 } hb hl
      (fun x hx => hr x (List.mem_cons_of_mem _ hx))
    simp only [run, hstep, List.nil_append]
    refine ⟨i1, i2, i3, fun _ => ?_⟩
    cases ps with
    | nil => rfl
    | cons x xs => exact i4 (List.cons_ne_nil _ _)

theorem run_load_short (ts : List Nat) :
    ∀ s : State, s.line.bucket = false → s.isLoaded = false → shortHold ts →
      (s.loadButtonPressedAt = 0 ∨
        ∀ t ∈ ts, s.loadButtonPressedAt ≤ t ∧ t - s.loadButtonPressedAt ≤ LOAD_PRESS_TIME) →
      (run loadStep s (ts.map assertedAt)).2 = [] ∧
        (run loadStep s (ts.map assertedAt)).1.isLoaded = false ∧
        (run loadStep s (ts.map assertedAt)).1.line.bucket = false := by
  induction ts with
  | nil => intro s hb hl _ _; exact ⟨rfl, hl, hb⟩
  | cons t ts ih =>
    intro s hb hl hs hp
    obtain ⟨hs1, hs2, hs3⟩ := hs
    have hsorted := List.pairwise_cons.mp hs1
    have hts : shortHold ts :=
      ⟨hsorted.2, fun x hx => hs2 x (List.mem_cons_of_mem _ hx),
        fun x hx y hy => hs3 x (List.mem_cons_of_mem _ hx) y (List.mem_cons_of_mem _ hy)⟩
    have htlt := hs2 t (List.mem_cons_self _ _)
    simp only [List.map_cons, run]
    by_cases hP : s.loadButtonPressedAt = 0
    · have hstep : loadStep s (assertedAt t) = ({ s with loadButtonPressedAt := t }, []) := by
        have hu : u32 t = t := by unfold u32; omega
        simp [loadStep, assertedAt, handle_load_btn, hb, hl, hP, lnot, hu]
      obtain ⟨i1, i2, i3⟩ := ih { s with loadButtonPressedAt := t } hb hl hts
        (Or.inr (fun x hx =>
          ⟨hsorted.1 x hx, hs3 t (List.mem_cons_self _ _) x (List.mem_cons_of_mem _ hx)⟩))
      rw [hstep]
      exact ⟨by simpa using i1, i2, i3⟩
    · have hw : ∀ x ∈ t :: ts,
          s.loadButtonPressedAt ≤ x ∧ x - s.loadButtonPressedAt ≤ LOAD_PRESS_TIME := by
        rcases hp with h | h
        · exact absurd h hP
        · exact h
      obtain ⟨hle, hd⟩ := hw t (List.mem_cons_self _ _)
      have hsub : usub32 t s.loadButtonPressedAt = t - s.loadButtonPressedAt := by
        unfold usub32; omega
      have hstep : loadStep s (assertedAt t) = (s, []) := by
        have hn : ¬ LOAD_PRESS_TIME < t - s.loadButtonPressedAt := by omega
        simp [loadStep, assertedAt, handle_load_btn, hb, hl, hP, lnot, hsub, hn]
      obtain ⟨i1, i2, i3⟩ := ih s hb hl hts
        (Or.inr (fun x hx => hw x (List.mem_cons_of_mem _ hx)))
      rw [hstep]
      exact ⟨by simpa using i1, i2, i3⟩

/-- Support for C14: the part of the contract that holds in every state.  With the
stored presence false and the load flag false, a `handle_load_btn` call that samples
the button released sets the pending press timestamp to zero, publishes nothing and
changes nothing else.  And when the first run starts the press, or continues a pending
press that is at most 100 ms old at its samples, two asserted runs that each last at
most 100 ms, separated by at least one released sample, never set the flag: it is
false after every prefix of the samples and nothing is published. -/
theorem released_sample_resets_pending_press (s : State) (pin millis : Nat)
    (run1 run2 : List Nat) (gap : List LoadPoll) (hb : s.line.bucket = false)
    (hl : s.isLoaded = false) :
    (lnot pin = false →
        handle_load_btn s pin millis = ({ s with loadButtonPressedAt := 0 }, [])) ∧
      ((s.loadButtonPressedAt = 0 ∨
          ∀ t ∈ run1, s.loadButtonPressedAt ≤ t ∧ t - s.loadButtonPressedAt ≤ LOAD_PRESS_TIME) →
        shortHold run1 → shortHold run2 → gap ≠ [] → (∀ p ∈ gap, lnot p.pin = false) →
        (run loadStep s (run1.map assertedAt ++ gap ++ run2.map assertedAt)).2 = [] ∧
          ∀ pre suf : List LoadPoll,
            pre ++ suf = run1.map assertedAt ++ gap ++ run2.map assertedAt →
            (run loadStep s pre).1.isLoaded = false) := by
  refine ⟨handle_load_btn_released s pin millis hb hl, ?_⟩
  intro hp h1 h2 hg hr
  obtain ⟨a1, a2, a3⟩ := run_load_short run1 s hb hl h1 hp
  obtain ⟨b1, b2, b3, b4⟩ := run_load_released gap (run loadStep s (run1.map assertedAt)).1 a3 a2 hr
  obtain ⟨c1, c2, _⟩ := run_load_short run2
    (run loadStep (run loadStep s (run1.map assertedAt)).1 gap).1 b3 b2 h2 (Or.inl (b4 hg))
  have hfin : (run loadStep s (run1.map assertedAt ++ gap ++ run2.map assertedAt)).1.isLoaded =
      false := by
    rw [run_append, run_append]
    exact c2
  refine ⟨?_, ?_⟩
  · rw [run_append, run_append, a1, b1, c1]
    rfl
  · intro pre suf hsplit
    cases hpre : (run loadStep s pre).1.isLoaded with
    | false => rfl
    | true =>
      rw [← hsplit, run_append, run_load_loaded suf _ hpre, hpre] at hfin
      exact absurd hfin (by decide)

/-- Example for the release reset: from the connected initial state, two asserted runs
of 80 ms each, 1000 to 1080 ms and 1120 to 1200 ms, with a released sample at 1100 ms
between them, leave the flag clear. -/
theorem released_sample_resets_pending_press_witness :
    (connectedInit.line.bucket = false ∧ connectedInit.isLoaded = false ∧
        connectedInit.loadButtonPressedAt = 0 ∧ shortHold [1000, 1080] ∧
        shortHold [1120, 1200] ∧ LOAD_PRESS_TIME < (1080 - 1000) + (1200 - 1120)) ∧
      (run loadStep connectedInit
        ([1000, 1080].map assertedAt ++ [{ pin := 1, millis := 1100 }] ++
          [1120, 1200].map assertedAt)).2 = [] ∧
      (run loadStep connectedInit
        ([1000, 1080].map assertedAt ++ [{ pin := 1, millis := 1100 }] ++
          [1120, 1200].map assertedAt)).1.isLoaded = false ∧
      handle_load_btn connectedInit 1 1100 =
        ({ connectedInit with loadButtonPressedAt := 0 }, []) :=
  ⟨⟨by decide, by decide, by decide, ⟨by decide, by decide, by decide⟩,
      ⟨by decide, by decide, by decide⟩, by decide⟩,
    ((released_sample_resets_pending_press connectedInit 1 1100 [1000, 1080] [1120, 1200]
      [{ pin := 1, millis := 1100 }] (by decide) (by decide)).2 (Or.inl (by decide))
      ⟨by decide, by decide, by decide⟩ ⟨by decide, by decide, by decide⟩
      (List.cons_ne_nil _ _) (by decide)).1,
    ((released_sample_resets_pending_press connectedInit 1 1100 [1000, 1080] [1120, 1200]
      [{ pin := 1, millis := 1100 }] (by decide) (by decide)).2 (Or.inl (by decide))
      ⟨by decide, by decide, by decide⟩ ⟨by decide, by decide, by decide⟩
      (List.cons_ne_nil _ _) (by decide)).2 _ [] (List.append_nil _),
    (released_sample_resets_pending_press connectedInit 1 1100 [1000, 1080] [1120, 1200]
      [{ pin := 1, millis := 1100 }] (by decide) (by decide)).1 (by decide)⟩

/-- C14: two short asserted runs that set the flag.  In the state `stalePress` the
presence is false, the flag is false and the timestamp of 1000 ms is still stored
although the button was released since.  From it, while the presence stays false, two
asserted runs of 80 ms each, 3000 to 3080 ms and 3120 to 3200 ms, with a released
sample at 3100 ms between them, set the flag at the very first sample and publish
"1". -/
theorem short_runs_confirm_load_from_stale_timestamp :
    stalePress.line.bucket = false ∧ stalePress.isLoaded = false ∧
      stalePress.loadButtonPressedAt = 1000 ∧
      shortHold [3000, 3080] ∧ shortHold [3120, 3200] ∧ lnot 1 = false ∧
      (handle_load_btn stalePress 0 3000).1.isLoaded = true ∧
      (run loadStep stalePress
        ([3000, 3080].map assertedAt ++ [{ pin := 1, millis := 3100 }] ++
          [3120, 3200].map assertedAt)).1.isLoaded = true ∧
      (run loadStep stalePress
        ([3000, 3080].map assertedAt ++ [{ pin := 1, millis := 3100 }] ++
          [3120, 3200].map assertedAt)).2 =
        [{ topic := Topic.bucket, payload := "1", qos := 1, retain := true }] :=
  ⟨by decide, by decide, by decide, ⟨by decide, by decide, by decide⟩,
    ⟨by decide, by decide, by decide⟩, by decide, by decide, by decide, by decide⟩

/-! ### Retained payloads follow the state after a resync -/

theorem lastPayload_append_of_nil (t : Topic) (pubs new : List Pub) (h : onTopic t new = []) :
    lastPayload t (pubs ++ new) = lastPayload t pubs := by
  unfold lastPayload
  rw [onTopic_append, h, List.append_nil]

theorem lastPayload_append_single (t : Topic) (pubs : List Pub) (p : Pub) (h : p.topic = t) :
    lastPayload t (pubs ++ [p]) = some p.payload := by
  unfold lastPayload
  rw [onTopic_append]
  have : onTopic t [p] = [p] := by simp [onTopic, h]
  rw [this]
  simp

theorem handle_sonar_cases (s : State) (m1 m2 d : Nat)
    (hc : s.wifiStatus = WlStatus.WL_CONNECTED) :
    (handle_sonar s m1 m2 d).1.line.emergency = s.line.emergency ∧
      (((handle_sonar s m1 m2 d).1.line.bucket = s.line.bucket ∧
          (handle_sonar s m1 m2 d).1.isLoaded = s.isLoaded ∧
          (handle_sonar s m1 m2 d).2 = []) ∨
        ((handle_sonar s m1 m2 d).1.isLoaded = false ∧
          (handle_sonar s m1 m2 d).2 =
            [{ topic := Topic.bucket, payload := boolStr (handle_sonar s m1 m2 d).1.line.bucket,
               qos := 1, retain := true }])) := by
  unfold handle_sonar
  simp only []
  split_ifs <;> simp_all

theorem handle_find_btn_cases (s : State) (pin : Nat)
    (hc : s.wifiStatus = WlStatus.WL_CONNECTED) :
    (handle_find_btn s pin).1.line.bucket = s.line.bucket ∧
      (handle_find_btn s pin).1.isLoaded = s.isLoaded ∧
      (((handle_find_btn s pin).1.line.emergency = s.line.emergency ∧
          (handle_find_btn s pin).2 = []) ∨
        (handle_find_btn s pin).2 =
          [{ topic := Topic.finding, payload := boolStr (handle_find_btn s pin).1.line.emergency,
             qos := 1, retain := true }]) := by
  unfold handle_find_btn
  simp only []
  split_ifs <;> simp_all

theorem handle_load_btn_cases (s : State) (pin millis : Nat)
    (hc : s.wifiStatus = WlStatus.WL_CONNECTED) :
    (handle_load_btn s pin millis).1.line = s.line ∧
      (((handle_load_btn s pin millis).1.isLoaded = s.isLoaded ∧
          (handle_load_btn s pin millis).2 = []) ∨
        ((handle_load_btn s pin millis).1.isLoaded = true ∧
          (handle_load_btn s pin millis).2 =
            [{ topic := Topic.bucket, payload := "1", qos := 1, retain := true }])) := by
  unfold handle_load_btn
  simp only []
  split_ifs <;> simp_all

theorem handle_dht_other_topics (s : State) (m1 m2 : Nat) (t h : FloatReading) :
    onTopic Topic.bucket (handle_dht s m1 m2 t h).2 = [] ∧
      onTopic Topic.finding (handle_dht s m1 m2 t h).2 = [] := by
  have hall := handle_dht_pubs_follow_change s m1 m2 t h
  constructor
  · unfold onTopic
    rw [List.filter_eq_nil_iff]
    intro p hp
    rcases hall p hp with h1 | h1 <;> simp [h1.1]
  · unfold onTopic
    rw [List.filter_eq_nil_iff]
    intro p hp
    rcases hall p hp with h1 | h1 <;> simp [h1.1]

theorem resync_payload (l b : Bool) :
    (if l = true then "1" else if b = true then "1" else "0") = boolStr (l || b) := by
  cases l <;> cases b <;> rfl

theorem resync_establishes_inSync (s : State) (pubs : List Pub) :
    inSync (mqtt_event_handler s MqttEvent.MQTT_EVENT_CONNECTED).1
      (pubs ++ (mqtt_event_handler s MqttEvent.MQTT_EVENT_CONNECTED).2) := by
  simp only [mqtt_event_handler, inSync, resync_payload]
  constructor
  · have e : pubs ++
        [({ topic := Topic.status, payload := "online", qos := 1, retain := true } : Pub),
          { topic := Topic.bucket, payload := boolStr (s.isLoaded || s.line.bucket), qos := 1,
            retain := true },
          { topic := Topic.finding, payload := boolStr s.line.emergency, qos := 1,
            retain := true }] =
        ((pubs ++ [{ topic := Topic.status, payload := "online", qos := 1, retain := true }]) ++
          [{ topic := Topic.bucket, payload := boolStr (s.isLoaded || s.line.bucket), qos := 1,
             retain := true }]) ++
          [{ topic := Topic.finding, payload := boolStr s.line.emergency, qos := 1,
             retain := true }] := by simp
    rw [e, lastPayload_append_of_nil Topic.bucket _ _ (by simp [onTopic])]
    exact lastPayload_append_single _ _ _ rfl
  · have e : pubs ++
        [({ topic := Topic.status, payload := "online", qos := 1, retain := true } : Pub),
          { topic := Topic.bucket, payload := boolStr (s.isLoaded || s.line.bucket), qos := 1,
            retain := true },
          { topic := Topic.finding, payload := boolStr s.line.emergency, qos := 1,
            retain := true }] =
        (pubs ++
          [{ topic := Topic.status, payload := "online", qos := 1, retain := true },
           { topic := Topic.bucket, payload := boolStr (s.isLoaded || s.line.bucket), qos := 1,
             retain := true }]) ++
          [{ topic := Topic.finding, payload := boolStr s.line.emergency, qos := 1,
             retain := true }] := by simp
    rw [e]
    exact lastPayload_append_single _ _ _ rfl

theorem call_keeps_inSync (s : State) (pubs : List Pub) (c : Call) (hi : inSync s pubs)
    (hm : c.isMonitor = true → s.wifiStatus = WlStatus.WL_CONNECTED) :
    inSync (call s c).1 (pubs ++ (call s c).2) := by
  obtain ⟨hi1, hi2⟩ := hi
  cases c with
  | wifi_loop status =>
    simp only [call, handle_wifi_loop_eq, List.append_nil]
    exact ⟨hi1, hi2⟩
  | sonar m1 m2 d =>
    obtain ⟨he, hcase⟩ := handle_sonar_cases s m1 m2 d (hm rfl)
    simp only [call, inSync]
    rcases hcase with ⟨hb, hl, hp⟩ | ⟨hl, hp⟩
    · rw [hp, List.append_nil, hb, hl, he]
      exact ⟨hi1, hi2⟩
    · rw [hp, hl, he]
      constructor
      · exact lastPayload_append_single _ _ _ rfl
      · rw [lastPayload_append_of_nil Topic.finding _ _ (by simp [onTopic])]
        exact hi2
  | dht m1 m2 t h =>
    obtain ⟨o1, o2⟩ := handle_dht_other_topics s m1 m2 t h
    have hf := handle_dht_frame s m1 m2 t h
    have h1 := congrArg State.isLoaded hf
    have h2 := congrArg State.line hf
    simp only [] at h1 h2
    simp only [call, inSync]
    rw [lastPayload_append_of_nil _ _ _ o1, lastPayload_append_of_nil _ _ _ o2, h1, h2]
    exact ⟨hi1, hi2⟩
  | find_btn pin =>
    obtain ⟨hb, hl, hcase⟩ := handle_find_btn_cases s pin (hm rfl)
    simp only [call, inSync]
    rw [hb, hl]
    rcases hcase with ⟨he, hp⟩ | hp
    · rw [hp, List.append_nil, he]
      exact ⟨hi1, hi2⟩
    · rw [hp]
      constructor
      · rw [lastPayload_append_of_nil Topic.bucket _ _ (by simp [onTopic])]
        exact hi1
      · exact lastPayload_append_single _ _ _ rfl
  | load_btn pin millis =>
    obtain ⟨hline, hcase⟩ := handle_load_btn_cases s pin millis (hm rfl)
    simp only [call, inSync]
    rw [hline]
    rcases hcase with ⟨hl, hp⟩ | ⟨hl, hp⟩
    · rw [hp, List.append_nil, hl]
      exact ⟨hi1, hi2⟩
    · rw [hp, hl]
      constructor
      · exact lastPayload_append_single _ _ _ rfl
      · rw [lastPayload_append_of_nil Topic.finding _ _ (by simp [onTopic])]
        exact hi2
  | mqtt_event e =>
    cases e with
    | MQTT_EVENT_CONNECTED => exact resync_establishes_inSync s pubs
    | _ =>
      simp only [call, mqtt_event_handler, List.append_nil]
      exact ⟨hi1, hi2⟩

theorem run_keeps_inSync (cs : List Call) :
    ∀ (s : State) (pubs : List Pub), inSync s pubs → monitorsConnected s cs = true →
      inSync (run call s cs).1 (pubs ++ (run call s cs).2) := by
  induction cs with
  | nil => intro s pubs hi _; simpa [run] using hi
  | cons c cs ih =>
    intro s pubs hi hm
    simp only [monitorsConnected, Bool.and_eq_true, Bool.or_eq_true, Bool.not_eq_true',
      decide_eq_true_eq] at hm
    obtain ⟨hm1, hm2⟩ := hm
    have hstep := call_keeps_inSync s pubs c hi (by
      intro hmon
      rcases hm1 with h | h
      · rw [hmon] at h; exact absurd h (by decide)
      · exact h)
    have := ih (call s c).1 (pubs ++ (call s c).2) hstep hm2
    simp only [run]
    rw [← List.append_assoc]
    exact this

theorem some_boolStr_eq_one (b : Bool) : some (boolStr b) = some "1" ↔ b = true := by
  cases b <;> simp [boolStr]

/-- C18: in every execution from the initial state in which a connected event has
been handled and the network state is connected at every monitor call after it, then
after each later call of any handler the payload most recently published on the
bucket topic is "1" if and only if the load flag or the stored presence is true, and
the payload most recently published on the finding topic is "1" if and only if the
stored emergency state is true; each payload is "0" otherwise. -/
theorem retained_payloads_follow_state_after_resync (pre cs : List Call)
    (h : monitorsConnected
      (run call init (pre ++ [Call.mqtt_event MqttEvent.MQTT_EVENT_CONNECTED])).1 cs = true) :
    (lastPayload Topic.bucket
          (run call init (pre ++ [Call.mqtt_event MqttEvent.MQTT_EVENT_CONNECTED] ++ cs)).2 =
          some "1" ↔
        ((run call init
            (pre ++ [Call.mqtt_event MqttEvent.MQTT_EVENT_CONNECTED] ++ cs)).1.isLoaded = true ∨
          (run call init
            (pre ++ [Call.mqtt_event MqttEvent.MQTT_EVENT_CONNECTED] ++ cs)).1.line.bucket =
            true)) ∧
      (lastPayload Topic.finding
          (run call init (pre ++ [Call.mqtt_event MqttEvent.MQTT_EVENT_CONNECTED] ++ cs)).2 =
          some "1" ↔
        (run call init
          (pre ++ [Call.mqtt_event MqttEvent.MQTT_EVENT_CONNECTED] ++ cs)).1.line.emergency =
          true) ∧
      inSync (run call init (pre ++ [Call.mqtt_event MqttEvent.MQTT_EVENT_CONNECTED] ++ cs)).1
        (run call init (pre ++ [Call.mqtt_event MqttEvent.MQTT_EVENT_CONNECTED] ++ cs)).2 := by
  have h0 : inSync (run call init (pre ++ [Call.mqtt_event MqttEvent.MQTT_EVENT_CONNECTED])).1
      (run call init (pre ++ [Call.mqtt_event MqttEvent.MQTT_EVENT_CONNECTED])).2 := by
    rw [run_append]
    simp only [run, call, List.append_nil]
    exact resync_establishes_inSync _ _
  have key := run_keeps_inSync cs _ _ h0 h
  have e := run_append call (pre ++ [Call.mqtt_event MqttEvent.MQTT_EVENT_CONNECTED]) cs init
  rw [e]
  simp only []
  refine ⟨?_, ?_, key⟩
  · rw [key.1, some_boolStr_eq_one]
    simp
  · rw [key.2, some_boolStr_eq_one]

/-- Witness for C18: after the resync, with the network connected, an object arrives,
the find button is pressed and the load button is sampled. -/
theorem retained_payloads_follow_state_after_resync_witness :
    monitorsConnected
        (run call init ([] ++ [Call.mqtt_event MqttEvent.MQTT_EVENT_CONNECTED])).1
        [Call.wifi_loop WlStatus.WL_CONNECTED, Call.sonar 500 500 0, Call.find_btn 0,
         Call.load_btn 0 600] = true ∧
      inSync
        (run call init
          ([] ++ [Call.mqtt_event MqttEvent.MQTT_EVENT_CONNECTED] ++
            [Call.wifi_loop WlStatus.WL_CONNECTED, Call.sonar 500 500 0, Call.find_btn 0,
             Call.load_btn 0 600])).1
        (run call init
          ([] ++ [Call.mqtt_event MqttEvent.MQTT_EVENT_CONNECTED] ++
            [Call.wifi_loop WlStatus.WL_CONNECTED, Call.sonar 500 500 0, Call.find_btn 0,
             Call.load_btn 0 600])).2 :=
  ⟨by decide,
    (retained_payloads_follow_state_after_resync []
      [Call.wifi_loop WlStatus.WL_CONNECTED, Call.sonar 500 500 0, Call.find_btn 0,
       Call.load_btn 0 600] (by decide)).2.2⟩

end Raptor
